import Mathlib

/-!
# Verification of the crypto-lab random-bit-generation engine

Shallow embedding of the deterministic PRNG engine and statistical
quality-assessment pipeline of the repository:

* `lib/entropy.ts` — `Entropy` pool, `LCG`, `MersenneTwister`, `ChaCha20`,
  `XorShift128Plus`, `Stats`, `toHex`/`fromHex`;
* `src/modules/complexity.ts` — the second `LCG` and `MersenneTwister`
  implementations (`MersenneTwister.init` uses the exact 16-bit-split multiply);
* `src/utils/statistics.ts` — `Statistics.chiSquareUniformity`.

JavaScript `number` values that hold exact integers are embedded as `Nat`/`Int`
with explicit `% 2^32` (resp. `% 2^64` for `BigInt`) wherever the source applies
`>>> 0`, typed-array coercion, or BigInt masking.  Where a JS double operation
can actually round (a product exceeding 2^53), the rounding is modelled
explicitly by `roundDouble` (IEEE-754 round-to-nearest, ties-to-even at 53
significant bits).  Divisions producing the `[0,1]`-valued outputs are embedded
exactly in `ℚ`; `Math.log2`, `Math.sqrt`, `Math.exp` and `Math.pow` are embedded
as their exact real counterparts.
-/

namespace CryptoLab

/-! ## JS numeric primitives -/

/-- `x >>> 0` / `Uint32Array` storage: reduction modulo `2^32`. -/
def u32 (x : Nat) : Nat := x % 2 ^ 32

/-- The value of JS `ToInt32` applied to a nonnegative integer-valued number:
the representative of `x mod 2^32` in `[-2^31, 2^31)`. -/
def toInt32 (x : Nat) : Int :=
  if x % 2 ^ 32 < 2 ^ 31 then ((x % 2 ^ 32 : Nat) : Int)
  else ((x % 2 ^ 32 : Nat) : Int) - 2 ^ 32

/-- JS `ToInt32` on an arbitrary integer value. -/
def int32ofZ (z : Int) : Int := (z + 2 ^ 31) % 2 ^ 32 - 2 ^ 31

/-- Floor base-2 logarithm for arguments in `[2^53, 2^64)`, computed by a
comparison cascade so that the kernel can evaluate it (every JS number
arising in these sources stays below `2^64`; see `roundDouble`). -/
def log2Below64 (n : Nat) : Nat :=
  if n < 2 ^ 54 then 53 else if n < 2 ^ 55 then 54 else if n < 2 ^ 56 then 55
  else if n < 2 ^ 57 then 56 else if n < 2 ^ 58 then 57 else if n < 2 ^ 59 then 58
  else if n < 2 ^ 60 then 59 else if n < 2 ^ 61 then 60 else if n < 2 ^ 62 then 61
  else if n < 2 ^ 63 then 62 else 63

def roundMantissa (n : Nat) : Nat :=
  let e := log2Below64 n - 52
  let q := n / 2 ^ e
  let r := n % 2 ^ e
  let half := 2 ^ (e - 1)
  (if half < r ∨ (r = half ∧ q % 2 = 1) then q + 1 else q) * 2 ^ e

/-- Rounding of an exact integer to the nearest IEEE-754 binary64 value
(round-to-nearest, ties to even), returned as an integer.  Every integer of
magnitude below `2^53` is exact; larger ones are rounded at 53 significant
bits.  This models the value of a JS `number` holding the result of an
integer-valued arithmetic expression (all such values in these sources stay
below `2^64` in magnitude, the range `log2Below64` covers). -/
def roundDouble (z : Int) : Int :=
  if z.natAbs < 2 ^ 53 then z
  else (if z < 0 then -1 else 1) * (roundMantissa z.natAbs : Int)

/-- 32-bit left rotation, the embedding of the sources' shared
`rotl(x, n) = ((x << n) | (x >>> (32 - n))) >>> 0` for `x < 2^32`. -/
def rotl32 (x n : Nat) : Nat :=
  ((x % 2 ^ 32) * 2 ^ n) % 2 ^ 32 ||| (x % 2 ^ 32) / 2 ^ (32 - n)

theorem u32_lt (x : Nat) : u32 x < 2 ^ 32 := Nat.mod_lt _ (by norm_num)

theorem roundDouble_of_small (z : Int) (h : z.natAbs < 2 ^ 53) :
    roundDouble z = z := by
  rw [roundDouble, if_pos h]

theorem roundDouble_nonneg (z : Int) (h : 0 ≤ z) : 0 ≤ roundDouble z := by
  rw [roundDouble]
  split
  · exact h
  · rw [if_neg (not_lt.mpr h), one_mul]
    exact Int.natCast_nonneg _

/-- For `2^53 ≤ n < 2^64` the rounded value stays below or at `2^64`. -/
theorem roundMantissa_le (n : Nat) (hbig : 2 ^ 53 ≤ n) (h : n < 2 ^ 64) :
    roundMantissa n ≤ 2 ^ 64 := by
  simp only [roundMantissa]
  set e := log2Below64 n - 52 with he
  have hlog_le : log2Below64 n ≤ 63 := by
    unfold log2Below64
    repeat' split
    all_goals omega
  have hsplit : (2 : Nat) ^ 64 = 2 ^ (64 - e) * 2 ^ e := by
    rw [← pow_add]
    congr 1
    omega
  have hdiv : n / 2 ^ e < 2 ^ (64 - e) := by
    apply Nat.div_lt_of_lt_mul
    rw [mul_comm, ← hsplit]
    exact h
  have hup : (n / 2 ^ e + 1) * 2 ^ e ≤ 2 ^ 64 := by
    rw [hsplit]
    exact Nat.mul_le_mul_right _ hdiv
  split
  · exact hup
  · calc n / 2 ^ e * 2 ^ e ≤ (n / 2 ^ e + 1) * 2 ^ e :=
        Nat.mul_le_mul_right _ (Nat.le_succ _)
    _ ≤ 2 ^ 64 := hup

/-- Rounding a nonnegative integer below `2^64` yields at most `2^64`. -/
theorem roundDouble_le_two_pow (z : Int) (h0 : 0 ≤ z) (h : z < 2 ^ 64) :
    roundDouble z ≤ 2 ^ 64 := by
  rw [roundDouble]
  split
  · exact le_of_lt h
  · rename_i hbig
    rw [if_neg (not_lt.mpr h0), one_mul]
    have hn64 : z.natAbs < 2 ^ 64 := by omega
    have := roundMantissa_le z.natAbs (le_of_not_lt hbig) hn64
    exact_mod_cast this

/-! ## `lib/entropy.ts`: class `LCG`

```ts
next(): number {
  this.state = (this.a * this.state + this.c) >>> 0;
  return this.state / this.m;
}
```
with `a = 1664525`, `c = 1013904223`, `m = 0x100000000`.  The double products
are modelled with `roundDouble` (they never actually round for 32-bit states,
which is part of what claim C6 asserts). -/

def lcgA : Nat := 1664525
def lcgC : Nat := 1013904223

/-- The state update of `LCG.next` in `lib/entropy.ts`:
`(a * state + c) >>> 0`, JS double arithmetic modelled exactly. -/
def lcgStep (s : Nat) : Nat :=
  ((roundDouble (roundDouble (lcgA * s : Nat) + lcgC))% 2 ^ 32).toNat

/-- The state update of `LCG.next` in `src/modules/complexity.ts`:
`(a * state + c) % m` with `m = 2^32` (JS `%` on exact nonnegative doubles). -/
def lcgStepCplx (s : Nat) : Nat :=
  ((roundDouble (roundDouble (lcgA * s : Nat) + lcgC))% 2 ^ 32).toNat

/-- `LCG` constructor: `this.state = seed ?? Date.now() & 0xFFFFFFFF`.
The environment's clock value is the second argument. -/
def lcgInit (seed : Option Nat) (now : Nat) : Nat :=
  match seed with
  | some s => s
  | none => (toInt32 now).toNat

/-- State after `n + 1` calls of `next()` (the `n`-th draw updates, then
returns). -/
def lcgStateAt (seed : Option Nat) (now n : Nat) : Nat :=
  lcgStep^[n + 1] (lcgInit seed now)

/-- Value returned by the `n`-th call of `LCG.next` (0-based). -/
def lcgOutAt (seed : Option Nat) (now n : Nat) : ℚ :=
  (lcgStateAt seed now n : ℚ) / 2 ^ 32

/-- `LCG.nextInt(max) = Math.floor(this.next() * max)` at the `n`-th draw. -/
def lcgNextIntAt (seed : Option Nat) (now n : Nat) (max : Int) : Int :=
  ⌊lcgOutAt seed now n * max⌋

/-! ## MT19937 (`lib/entropy.ts` class `MersenneTwister` and
`src/modules/complexity.ts` class `MersenneTwister`)

Both share the same twist and tempering code; they differ in the seeding
recurrence: `lib/entropy.ts` computes
`((0x6c078965 * (prev ^ (prev >>> 30))) + i) >>> 0` with a plain JS `*`
(whose double product exceeds `2^53` and rounds), while
`src/modules/complexity.ts` uses the exact 16-bit-split multiply. -/

/-- One step of the `lib/entropy.ts` seeding recurrence
`this.mt[i] = ((0x6c078965 * (prev ^ (prev >>> 30))) + i) >>> 0`.
`prev ^ (prev >>> 30)` is an int32 (`toInt32`), the product and the sum are
JS doubles (`roundDouble`), and `>>> 0` is `ToUint32`. -/
def mtSeedStepEntropy (prev i : Nat) : Nat :=
  ((roundDouble (roundDouble (1812433253 * toInt32 (prev ^^^ (prev >>> 30))) +
      (i : Int)))% 2 ^ 32).toNat

/-- One step of the `src/modules/complexity.ts` seeding recurrence
`(((((s & 0xffff0000) >>> 16) * 1812433253) << 16) + (s & 0x0000ffff) * 1812433253 + i) >>> 0`
with `s = prev ^ (prev >>> 30)`.  All products stay below `2^53`, so only the
int32 wrap of `<< 16` needs modelling. -/
def mtSeedStepCplx (prev i : Nat) : Nat :=
  ((int32ofZ ((((prev ^^^ (prev >>> 30)) % 2 ^ 32) / 2 ^ 16 * 1812433253 : Nat) * 2 ^ 16) +
      ((prev ^^^ (prev >>> 30)) % 2 ^ 16 * 1812433253 : Nat) + (i : Int))% 2 ^ 32).toNat

/-- Build entries `mt[i], ..., mt[i+k-1]` given `mt[i-1] = prev`. -/
def mtSeedAux (step : Nat → Nat → Nat) (prev i : Nat) : Nat → List Nat
  | 0 => []
  | k + 1 =>
    let v := step prev i
    v :: mtSeedAux step v (i + 1) k

/-- The 624-word state array produced by `lib/entropy.ts` `seed(s)`. -/
def mtSeedEntropy (s : Nat) : List Nat :=
  s % 2 ^ 32 :: mtSeedAux mtSeedStepEntropy (s % 2 ^ 32) 1 623

/-- The 624-word state array produced by `src/modules/complexity.ts` `init(seed)`. -/
def mtSeedCplx (s : Nat) : List Nat :=
  s % 2 ^ 32 :: mtSeedAux mtSeedStepCplx (s % 2 ^ 32) 1 623

/-- The exact seeding recurrence as stated by the specification:
`mt[i] = (1812433253 * (mt[i-1] xor (mt[i-1] >> 30)) + i) mod 2^32`. -/
def mtSeedStepSpec (prev i : Nat) : Nat :=
  (1812433253 * (prev ^^^ (prev >>> 30)) + i) % 2 ^ 32

/-- The 624-word state array demanded by the specification. -/
def mtSeedSpec (s : Nat) : List Nat :=
  s % 2 ^ 32 :: mtSeedAux mtSeedStepSpec (s % 2 ^ 32) 1 623

/-- One in-place update of the twist loop shared by both implementations:
```ts
const y = (this.mt[i] & 0x80000000) | (this.mt[(i + 1) % 624] & 0x7fffffff);
this.mt[i] = this.mt[(i + 397) % 624] ^ (y >>> 1);
if (y & 1) this.mt[i] ^= 0x9908b0df;
```
-/
def mtTwistStep (mt : List Nat) (i : Nat) : List Nat :=
  let y := (mt.getD i 0 &&& 0x80000000) ||| (mt.getD ((i + 1) % 624) 0 &&& 0x7fffffff)
  let v := mt.getD ((i + 397) % 624) 0 ^^^ (y >>> 1)
  mt.set i (if y &&& 1 = 1 then v ^^^ 0x9908b0df else v)

/-- The full twist (`twist` / `generateNumbers`): the loop over `i < 624`.
(`generateNumbers` in complexity.ts splits the same loop into three ranges
with identical bodies modulo index arithmetic.) -/
def mtTwist (mt : List Nat) : List Nat :=
  (List.range 624).foldl mtTwistStep mt

/-- The tempering transform applied by `next()`, followed by `>>> 0`:
```ts
y ^= y >>> 11; y ^= (y << 7) & 0x9d2c5680;
y ^= (y << 15) & 0xefc60000; y ^= y >>> 18;  return (y >>> 0) / 0xFFFFFFFF
```
-/
def mtTemper (y0 : Nat) : Nat :=
  let y1 := y0 ^^^ (y0 >>> 11)
  let y2 := y1 ^^^ ((y1 <<< 7) &&& 0x9d2c5680)
  let y3 := y2 ^^^ ((y2 <<< 15) &&& 0xefc60000)
  (y3 ^^^ (y3 >>> 18)) % 2 ^ 32

/-- Generator state: the 624-word array plus the index cursor. -/
structure MtState where
  mt : List Nat
  index : Nat

/-- Constructor state: `index = 624` forces a twist on the first draw
(the constructors set `index` to 625 / `N + 1` and then seeding resets it
to 624). -/
def mtInitEntropy (seed : Option Nat) (now : Nat) : MtState :=
  ⟨mtSeedEntropy (seed.getD now), 624⟩

def mtInitCplx (seed : Option Nat) (now : Nat) : MtState :=
  ⟨mtSeedCplx (seed.getD now), 624⟩

/-- `next()`: twist when the cursor has reached 624, temper `mt[index++]`.
This is the tempered raw word; the returned float divides it by `0xFFFFFFFF`
(see `mtNext`). -/
def mtRawNext (st : MtState) : Nat × MtState :=
  let st2 := if st.index ≥ 624 then MtState.mk (mtTwist st.mt) 0 else st
  (mtTemper (st2.mt.getD st2.index 0), ⟨st2.mt, st2.index + 1⟩)

/-- `next()` including the final `return (y >>> 0) / 0xFFFFFFFF`. -/
def mtNext (st : MtState) : ℚ × MtState :=
  (((mtRawNext st).1 : ℚ) / 0xFFFFFFFF, (mtRawNext st).2)

def mtStepState (st : MtState) : MtState := (mtRawNext st).2

/-- Tempered raw word of the `n`-th `next()` draw (0-based). -/
def mtRawAtEntropy (seed : Option Nat) (now n : Nat) : Nat :=
  (mtRawNext (mtStepState^[n] (mtInitEntropy seed now))).1

def mtRawAtCplx (seed : Option Nat) (now n : Nat) : Nat :=
  (mtRawNext (mtStepState^[n] (mtInitCplx seed now))).1

/-- Value of the `n`-th `next()` draw (0-based) of the `lib/entropy.ts`
Mersenne twister. -/
def mtOutAtEntropy (seed : Option Nat) (now n : Nat) : ℚ :=
  (mtRawAtEntropy seed now n : ℚ) / 0xFFFFFFFF

/-- Value of the `n`-th `next()` draw (0-based) of the
`src/modules/complexity.ts` Mersenne twister. -/
def mtOutAtCplx (seed : Option Nat) (now n : Nat) : ℚ :=
  (mtRawAtCplx seed now n : ℚ) / 0xFFFFFFFF

/-- `nextInt(max) = Math.floor(this.next() * max)` at the `n`-th draw. -/
def mtNextIntAtCplx (seed : Option Nat) (now n : Nat) (max : Int) : Int :=
  ⌊mtOutAtCplx seed now n * max⌋

def mtNextIntAtEntropy (seed : Option Nat) (now n : Nat) (max : Int) : Int :=
  ⌊mtOutAtEntropy seed now n * max⌋

/-! ## `lib/entropy.ts`: class `ChaCha20`

State: 16 words (`Uint32Array`), a 64-byte keystream buffer, cursor `pos`.
The constructor fills words 0-3 with the ASCII constants, packs the 32-byte
key little-endian into words 4-11, zeroes words 12-13 and derives words
14-15 from `Date.now()` (modelled by the explicit `now` argument). -/

/-- `key[o] | key[o+1] << 8 | key[o+2] << 16 | key[o+3] << 24` stored into a
`Uint32Array` slot (missing bytes read as `undefined`, which `|` coerces
to 0; the store wraps mod `2^32`). -/
def word32ofBytes (key : List Nat) (o : Nat) : Nat :=
  (key.getD o 0 ||| (key.getD (o + 1) 0 <<< 8) ||| (key.getD (o + 2) 0 <<< 16) |||
    (key.getD (o + 3) 0 <<< 24)) % 2 ^ 32

/-- The constructor's 16-word state for an explicit `seed` key. -/
def chachaInit (key : List Nat) (now : Nat) : List Nat :=
  [0x61707865, 0x3320646e, 0x79622d32, 0x6b206574,
   word32ofBytes key 0, word32ofBytes key 4, word32ofBytes key 8,
   word32ofBytes key 12, word32ofBytes key 16, word32ofBytes key 20,
   word32ofBytes key 24, word32ofBytes key 28,
   0, 0, now % 2 ^ 32, now / 2 ^ 32 % 2 ^ 32]

/-- `quarterRound(x, a, b, c, d)`: the in-place add-rotate-xor sequence
```ts
x[a] = (x[a] + x[b]) >>> 0; x[d] = this.rotl(x[d] ^ x[a], 16);
x[c] = (x[c] + x[d]) >>> 0; x[b] = this.rotl(x[b] ^ x[c], 12);
x[a] = (x[a] + x[b]) >>> 0; x[d] = this.rotl(x[d] ^ x[a], 8);
x[c] = (x[c] + x[d]) >>> 0; x[b] = this.rotl(x[b] ^ x[c], 7);
```
each store is written back through the array before the next read. -/
def chachaQR (x : List Nat) (a b c d : Nat) : List Nat :=
  let x1 := x.set a ((x.getD a 0 + x.getD b 0) % 2 ^ 32)
  let x2 := x1.set d (rotl32 (x1.getD d 0 ^^^ x1.getD a 0) 16)
  let x3 := x2.set c ((x2.getD c 0 + x2.getD d 0) % 2 ^ 32)
  let x4 := x3.set b (rotl32 (x3.getD b 0 ^^^ x3.getD c 0) 12)
  let x5 := x4.set a ((x4.getD a 0 + x4.getD b 0) % 2 ^ 32)
  let x6 := x5.set d (rotl32 (x5.getD d 0 ^^^ x5.getD a 0) 8)
  let x7 := x6.set c ((x6.getD c 0 + x6.getD d 0) % 2 ^ 32)
  x7.set b (rotl32 (x7.getD b 0 ^^^ x7.getD c 0) 7)

/-- The body of the round loop in `block()`: 4 column quarter-rounds followed
by 4 diagonal quarter-rounds. -/
def chachaDoubleRound (x : List Nat) : List Nat :=
  chachaQR (chachaQR (chachaQR (chachaQR
    (chachaQR (chachaQR (chachaQR (chachaQR x 0 4 8 12)
      1 5 9 13) 2 6 10 14) 3 7 11 15)
    0 5 10 15) 1 6 11 12) 2 7 8 13) 3 4 9 14

/-- The `for (let i = 0; i < 10; i++)` round loop. -/
def chachaRounds (s : List Nat) : List Nat :=
  (List.range 10).foldl (fun x _ => chachaDoubleRound x) s

/-- The serialization loop of `block()`: for each of the 16 words, add the
pre-round word mod `2^32` and store 4 bytes little-endian. -/
def chachaSerialize (x st : List Nat) : List Nat :=
  (List.range 16).foldl (fun buf i =>
    let v := (x.getD i 0 + st.getD i 0) % 2 ^ 32
    (((buf.set (i * 4) (v &&& 0xFF)).set (i * 4 + 1) ((v >>> 8) &&& 0xFF)).set
      (i * 4 + 2) ((v >>> 16) &&& 0xFF)).set (i * 4 + 3) ((v >>> 24) &&& 0xFF))
    (List.replicate 64 0)

/-- `this.state[12]++; if (this.state[12] === 0) this.state[13]++;`
(`Uint32Array` increments wrap mod `2^32`). -/
def chachaIncrCounter (st : List Nat) : List Nat :=
  let st2 := st.set 12 ((st.getD 12 0 + 1) % 2 ^ 32)
  if st2.getD 12 0 = 0 then st2.set 13 ((st2.getD 13 0 + 1) % 2 ^ 32) else st2

/-- `block()`: keystream buffer from the current state, plus the updated
state (counter incremented).  The buffer contents do not depend on the
previous buffer (all 64 positions are overwritten). -/
def chachaBlock (st : List Nat) : List Nat × List Nat :=
  (chachaSerialize (chachaRounds st) st, chachaIncrCounter st)

/-- The byte-store loop of `ChaCha20CSPRNG.generateBlock`
(`src/modules/complexity.ts`): identical to `chachaSerialize` except that
the source shifts with the *signed* `>>` (`(word >> 8) & 0xFF` etc.), so
the upper bytes go through `ToInt32`; JS `>>` is floor division of the
int32 value by the power of two, and `& 0xFF` takes the nonnegative
residue mod 256. -/
def cplxSerialize (x st : List Nat) : List Nat :=
  (List.range 16).foldl (fun buf i =>
    let word := (x.getD i 0 + st.getD i 0) % 2 ^ 32
    (((buf.set (i * 4) (word &&& 0xFF)).set
      (i * 4 + 1) ((toInt32 word / 2 ^ 8 % 256).toNat)).set
      (i * 4 + 2) ((toInt32 word / 2 ^ 16 % 256).toNat)).set
      (i * 4 + 3) ((toInt32 word / 2 ^ 24 % 256).toNat))
    (List.replicate 64 0)

/-- `ChaCha20CSPRNG.generateBlock` (`src/modules/complexity.ts`): the block
counter lives in an unbounded `bigint` field; the method first stores its
low 32 bits into state word 12 (`this.state[12] = Number(this.counter &
0xFFFFFFFFn)`), runs the same 10 double rounds as `lib/entropy.ts`
(`quarterRound` performs the identical add-rotate-xor sequence, embedded by
`chachaRounds`), adds the counter-updated state word-by-word mod `2^32`,
serializes little-endian, and then increments the `bigint` counter — word
13 (the first nonce word) is never touched.  Returns (buffer, new state,
new counter). -/
def cplxGenerateBlock (st : List Nat) (counter : Nat) : List Nat × List Nat × Nat :=
  let st2 := st.set 12 (counter % 2 ^ 32)
  (cplxSerialize (chachaRounds st2) st2, st2, counter + 1)

/-- Machine state: 16 words, byte buffer, cursor.  The constructor leaves
`pos = 64` to force a block on first use. -/
structure ChaChaState where
  st : List Nat
  buf : List Nat
  pos : Nat

def chachaStart (key : List Nat) (now : Nat) : ChaChaState :=
  ⟨chachaInit key now, List.replicate 64 0, 64⟩

/-- `nextByte()`: refill when `pos >= 64`, then return `buffer[pos++]`. -/
def chachaNextByte (c : ChaChaState) : Nat × ChaChaState :=
  let c2 := if c.pos ≥ 64 then
      ChaChaState.mk (chachaBlock c.st).2 (chachaBlock c.st).1 0
    else c
  (c2.buf.getD c2.pos 0, ⟨c2.st, c2.buf, c2.pos + 1⟩)

def chachaByteStep (c : ChaChaState) : ChaChaState := (chachaNextByte c).2

/-- The 32-bit word assembled by `next()` from four consecutive keystream
bytes (little-endian, `>>> 0`). -/
def chachaRawNext (c : ChaChaState) : Nat :=
  let b0 := (chachaNextByte c).1
  let b1 := (chachaNextByte (chachaByteStep c)).1
  let b2 := (chachaNextByte (chachaByteStep (chachaByteStep c))).1
  let b3 := (chachaNextByte (chachaByteStep (chachaByteStep (chachaByteStep c)))).1
  (b0 ||| (b1 <<< 8) ||| (b2 <<< 16) ||| (b3 <<< 24)) % 2 ^ 32

/-- Raw word of the `n`-th `next()` draw (each draw consumes 4 bytes). -/
def chachaRawAt (key : List Nat) (now n : Nat) : Nat :=
  chachaRawNext (chachaByteStep^[4 * n] (chachaStart key now))

/-- Value of the `n`-th `next()` draw: `uint32 / 0xFFFFFFFF`. -/
def chachaOutAt (key : List Nat) (now n : Nat) : ℚ :=
  (chachaRawAt key now n : ℚ) / 0xFFFFFFFF

/-- `nextInt(max) = Math.floor(this.next() * max)`. -/
def chachaNextIntAt (key : List Nat) (now n : Nat) (max : Int) : Int :=
  ⌊chachaOutAt key now n * max⌋

/-! ## `lib/entropy.ts`: class `XorShift128Plus`

`BigInt` state `(s0, s1)`, both masked to 64 bits, zero-repaired to 1. -/

/-- Constructor: `s = seed ?? BigInt(Date.now()) * 0x123456789ABCDEFn`;
`s0 = s & mask`, `s1 = (s * 0x5851F42D4C957F2Dn) & mask`; each zero half is
replaced by 1. -/
def xsInit (seed : Option Nat) (now : Nat) : Nat × Nat :=
  let s := seed.getD (now * 0x123456789ABCDEF)
  let s0 := s % 2 ^ 64
  let s1 := s * 0x5851F42D4C957F2D % 2 ^ 64
  (if s0 = 0 then 1 else s0, if s1 = 0 then 1 else s1)

/-- The state transition of `next()`:
```ts
let s1 = this.s0; const s0 = this.s1; this.s0 = s0;
s1 ^= (s1 << 23n) & 0xFFFFFFFFFFFFFFFFn;
this.s1 = s1 ^ s0 ^ (s1 >> 18n) ^ (s0 >> 5n);
```
-/
def xsStep (p : Nat × Nat) : Nat × Nat :=
  let t := p.1 ^^^ ((p.1 <<< 23) % 2 ^ 64)
  (p.2, t ^^^ p.2 ^^^ (t >>> 18) ^^^ (p.2 >>> 5))

/-- `result = (this.s1 + s0) & mask` for the draw taken from state `p`. -/
def xsResult (p : Nat × Nat) : Nat := ((xsStep p).2 + p.2) % 2 ^ 64

/-- `return Number(result) / 0xFFFFFFFFFFFFFFFF`: `Number(result)` rounds the
64-bit `BigInt` to a double (`roundDouble`), and the JS number literal
`0xFFFFFFFFFFFFFFFF` itself denotes the double `2^64` (the integer
`2^64 - 1` is not representable and rounds up). -/
def xsOut (p : Nat × Nat) : ℚ :=
  ((roundDouble (xsResult p) : ℤ) : ℚ) / 2 ^ 64

/-- State before the `n`-th draw. -/
def xsStateAt (seed : Option Nat) (now n : Nat) : Nat × Nat :=
  xsStep^[n] (xsInit seed now)

/-- Value of the `n`-th `next()` draw. -/
def xsOutAt (seed : Option Nat) (now n : Nat) : ℚ :=
  xsOut (xsStateAt seed now n)

/-- `nextInt(max) = Math.floor(this.next() * max)`. -/
def xsNextIntAt (seed : Option Nat) (now n : Nat) (max : Int) : Int :=
  ⌊xsOutAt seed now n * max⌋

/-! ## `lib/entropy.ts`: class `Entropy` (the entropy pool)

`pool` is a JS array of bytes with `poolSize = 256`.  The timing /
`Math.random` samples are environment inputs; they are modelled by an
oracle `env : Nat → Nat` indexed by the call counter (`collectTiming` and
`collectMathRandom` read the environment, and `addEntropy` masks the sample
with `& 0xFF` anyway). -/

/-- `addEntropy(byte)`:
`this.pool.push(byte & 0xFF); if (this.pool.length > this.poolSize) this.pool.shift();`. -/
def addEntropy (pool : List Nat) (b : Nat) : List Nat :=
  let p := pool ++ [b % 256]
  if 256 < p.length then p.tail else p

/-- The entropy-collection loop at the start of `getBytes`:
16 iterations, each adding one timing sample and one `Math.random` sample. -/
def collectFresh (pool : List Nat) (env : Nat → Nat) : List Nat :=
  (List.range 16).foldl
    (fun p k => addEntropy (addEntropy p (env (2 * k))) (env (2 * k + 1))) pool

/-- The inner mixing loop producing output byte `i`:
`mixed ^= pool[j] * (j + i + 1); mixed = (mixed * 31 + 17) & 0xFF`. -/
def mixByte (pool : List Nat) (i : Nat) : Nat :=
  (List.range pool.length).foldl
    (fun mixed j => ((mixed ^^^ pool.getD j 0 * (j + i + 1)) * 31 + 17) &&& 0xFF) 0

/-- `getBytes(count)`: collect fresh samples, then mix one output byte per
index, XORing with one more timing sample (`Uint8Array` store masks to a
byte).  Returns the output bytes and the final pool. -/
def getBytes (pool : List Nat) (env : Nat → Nat) (count : Nat) : List Nat × List Nat :=
  let p := collectFresh pool env
  ((List.range count).map (fun i => (mixByte p i ^^^ env (32 + i)) % 256), p)

/-! ## `lib/entropy.ts`: `toHex` / `fromHex` -/

/-- Hex digit of a nibble as produced by `Number.prototype.toString(16)`. -/
def nibbleChar (n : Nat) : Char :=
  if n < 10 then Char.ofNat (48 + n) else Char.ofNat (87 + n)

/-- `b.toString(16)` for a byte value `b < 256`: one digit below 16,
two digits otherwise. -/
def byteToStringBase16 (b : Nat) : List Char :=
  if b < 16 then [nibbleChar b] else [nibbleChar (b / 16), nibbleChar (b % 16)]

/-- `b.toString(16).padStart(2, '0')`. -/
def byteToHexPair (b : Nat) : List Char :=
  let s := byteToStringBase16 b
  if s.length = 1 then '0' :: s else s

/-- `toHex(bytes) = Array.from(bytes).map(b => b.toString(16).padStart(2, '0')).join('')`. -/
def toHex (bytes : List Nat) : String :=
  ⟨(bytes.map byteToHexPair).flatten⟩

/-- Numeric value of a hex digit as `parseInt(..., 16)` reads it
(invalid characters do not occur in `toHex` output; they are mapped to 0
where `parseInt` would yield `NaN`). -/
def hexDigitVal (c : Char) : Nat :=
  if '0' ≤ c ∧ c ≤ '9' then c.toNat - 48
  else if 'a' ≤ c ∧ c ≤ 'f' then c.toNat - 87
  else if 'A' ≤ c ∧ c ≤ 'F' then c.toNat - 55
  else 0

/-- `fromHex`: `new Uint8Array(hex.length / 2)` with
`bytes[i] = parseInt(hex.slice(i * 2, i * 2 + 2), 16)`; a trailing odd
character is dropped by the `length / 2` truncation. -/
def fromHexChars : List Char → List Nat
  | c1 :: c2 :: rest => (16 * hexDigitVal c1 + hexDigitVal c2) :: fromHexChars rest
  | _ => []

def fromHex (s : String) : List Nat := fromHexChars s.data

/-! ## `lib/entropy.ts`: the `Stats` object

Samples are embedded as exact rationals.  The one square root in the source
(`runsTest`'s `z = |runs - expected| / Math.sqrt(variance) < 1.96`) is
embedded by the exact-real-equivalent squared comparison
`(runs - expected)^2 < 1.96^2 * variance`; this also matches the JS
behaviour in the degenerate `variance = 0` case, where the source compares
`Infinity`/`NaN` against `1.96` and gets `false`. -/

/-- `Math.min(Math.floor(v * buckets), buckets - 1)` — the bucket of a sample.
A negative result (possible only for samples outside `[0,1)`) indexes a
plain JS property write that the later `reduce` over the array ignores. -/
def statBucket (buckets : Nat) (v : ℚ) : Int :=
  min ⌊v * buckets⌋ ((buckets : Int) - 1)

/-- The counting loop of `Stats.chiSquare`. -/
def statChiStep (buckets : Nat) (cs : List Nat) (v : ℚ) : List Nat :=
  let b := statBucket buckets v
  if b < 0 then cs else cs.set b.toNat (cs.getD b.toNat 0 + 1)

def statChiCounts (data : List ℚ) (buckets : Nat) : List Nat :=
  data.foldl (statChiStep buckets) (List.replicate buckets 0)

/-- `Stats.chiSquare(data, buckets = 10)`: statistic
`Σ (c - expected)^2 / expected` with `expected = data.length / buckets`,
pass iff `statistic < 16.92`. -/
def statChiStatistic (data : List ℚ) (buckets : Nat) : ℚ :=
  (statChiCounts data buckets).foldl
    (fun sum c => sum + ((c : ℚ) - (data.length : ℚ) / buckets) ^ 2 /
      ((data.length : ℚ) / buckets)) 0

def statChiPass (data : List ℚ) (buckets : Nat) : Bool :=
  decide (statChiStatistic data buckets < 16.92)

/-- The sorted copy `[...data].sort((a, b) => a - b)` and the median pick
`sorted[Math.floor(data.length / 2)]`.  Numeric sorting is embedded by
insertion sort: on a linear order the sorted copy is the same list
whatever comparison sort the engine uses. -/
def statMedian (data : List ℚ) : ℚ :=
  (data.insertionSort (· ≤ ·)).getD (data.length / 2) 0

/-- `signs = data.map(x => x >= median ? 1 : 0)`. -/
def statSigns (data : List ℚ) : List Nat :=
  data.map (fun x => if statMedian data ≤ x then 1 else 0)

/-- `runs`: 1 plus the number of adjacent sign changes. -/
def statRuns (data : List ℚ) : Nat :=
  1 + ((statSigns data).zip (statSigns data).tail).countP (fun p => p.1 ≠ p.2)

def statRunsN1 (data : List ℚ) : Nat := (statSigns data).countP (· = 1)

def statRunsN2 (data : List ℚ) : Nat := (statSigns data).countP (· = 0)

/-- `expected = 2 n1 n2 / (n1 + n2) + 1`. -/
def statRunsExpected (data : List ℚ) : ℚ :=
  2 * statRunsN1 data * statRunsN2 data /
    ((statRunsN1 data : ℚ) + statRunsN2 data) + 1

/-- `variance = 2 n1 n2 (2 n1 n2 - n1 - n2) / ((n1 + n2)^2 (n1 + n2 - 1))`. -/
def statRunsVariance (data : List ℚ) : ℚ :=
  2 * statRunsN1 data * statRunsN2 data *
      (2 * statRunsN1 data * statRunsN2 data - statRunsN1 data - statRunsN2 data) /
    (((statRunsN1 data : ℚ) + statRunsN2 data) ^ 2 *
      ((statRunsN1 data : ℚ) + statRunsN2 data - 1))

/-- `pass = |runs - expected| / sqrt(variance) < 1.96`, in squared form. -/
def statRunsPass (data : List ℚ) : Bool :=
  decide (((statRuns data : ℚ) - statRunsExpected data) ^ 2 <
    (196 / 100 : ℚ) ^ 2 * statRunsVariance data)

/-- `new Uint8Array(data.map(d => Math.floor(d * 256)))` — the typed-array
store reduces the floor mod 256. -/
def bytesOfSamples (data : List ℚ) : List Nat :=
  data.map (fun d => (⌊d * 256⌋ % 256).toNat)

/-- `Stats.entropy(bytes)`: Shannon entropy over the 256-bin histogram,
`Math.log2` embedded as the exact real `Real.logb 2`. -/
noncomputable def shannonEntropy (bytes : List Nat) : ℝ :=
  (List.range 256).foldl
    (fun h b =>
      if 0 < bytes.count b then
        h - ((bytes.count b : ℝ) / bytes.length) *
          Real.logb 2 ((bytes.count b : ℝ) / bytes.length)
      else h) 0

open scoped Classical in
/-- `Stats.assess(data)`: composite score and quality label.  The two
entropy-threshold tests compare reals, hence the classical `if`s. -/
noncomputable def assess (data : List ℚ) : Nat × String :=
  let ent := shannonEntropy (bytesOfSamples data)
  let score : Nat :=
    (if statChiPass data 10 then 33 else 0) +
    (if statRunsPass data then 33 else 0) +
    (if ent > 7.5 then 34 else if ent > 6.5 then 17 else 0)
  (score,
    if score ≥ 90 then "excellent"
    else if score ≥ 70 then "good"
    else if score ≥ 50 then "fair" else "poor")

/-! ## `src/utils/statistics.ts`: `Statistics.chiSquareUniformity`

```ts
const min = Math.min(...data);  const max = Math.max(...data);
const range = max - min || 1;
```
with buckets `Math.min(Math.floor(((value - min) / range) * numBuckets), numBuckets - 1)`,
`expected = data.length / numBuckets`, statistic `Σ (observed - expected)^2 / expected`,
then the Wilson-Hilferty / polynomial-normal-CDF p-value approximation
(`Math.pow`, `Math.sqrt`, `Math.exp` embedded as exact reals). -/

def stxMin (data : List ℚ) : ℚ :=
  match data with
  | [] => 0
  | h :: t => t.foldl min h

def stxMax (data : List ℚ) : ℚ :=
  match data with
  | [] => 0
  | h :: t => t.foldl max h

/-- `range = max - min || 1`: JS `||` replaces a zero (falsy) difference by 1. -/
def stxRange (data : List ℚ) : ℚ :=
  if stxMax data - stxMin data = 0 then 1 else stxMax data - stxMin data

def stxBucket (data : List ℚ) (nb : Nat) (v : ℚ) : Int :=
  min ⌊(v - stxMin data) / stxRange data * nb⌋ ((nb : Int) - 1)

def stxCounts (data : List ℚ) (nb : Nat) : List Nat :=
  data.foldl
    (fun cs v =>
      let b := stxBucket data nb v
      if b < 0 then cs else cs.set b.toNat (cs.getD b.toNat 0 + 1))
    (List.replicate nb 0)

def stxExpected (data : List ℚ) (nb : Nat) : ℚ := (data.length : ℚ) / nb

def stxStatistic (data : List ℚ) (nb : Nat) : ℚ :=
  (stxCounts data nb).foldl
    (fun sum c => sum + ((c : ℚ) - stxExpected data nb) ^ 2 / stxExpected data nb) 0

/-- `normalCDF(x)`: the Abramowitz-Stegun style polynomial approximation used
by the source, with `Math.abs`, `Math.sqrt`, `Math.exp`. -/
noncomputable def stxNormalCDF (x : ℝ) : ℝ :=
  let sign : ℝ := if x < 0 then -1 else 1
  let x2 := |x| / Real.sqrt 2
  let t := 1 / (1 + 0.3275911 * x2)
  let y := 1 - (((((1.061405429 * t + -1.453152027) * t) + 1.421413741) * t +
      -0.284496736) * t + 0.254829592) * t * Real.exp (-x2 * x2)
  0.5 * (1 + sign * y)

/-- `chiSquarePValue(chiSquare, df)`: Wilson-Hilferty transform followed by
the normal-CDF approximation; returns 1 for `df <= 0`. -/
noncomputable def stxPValue (chi2 : ℚ) (df : Nat) : ℝ :=
  if df = 0 then 1
  else
    let x : ℝ := (chi2 : ℝ) / df
    let z := x ^ ((1 : ℝ) / 3) - (1 - 2 / (9 * df))
    let denom := Real.sqrt (2 / (9 * df))
    1 - stxNormalCDF (z / denom)

/-- The record returned by `chiSquareUniformity`. -/
structure ChiUniformityOutcome where
  statistic : ℚ
  pValue : ℝ
  degreesOfFreedom : Nat
  isRandom : Prop
  buckets : List Nat
  expected : ℚ

noncomputable def chiSquareUniformity (data : List ℚ) (nb : Nat) : ChiUniformityOutcome :=
  { statistic := stxStatistic data nb
    pValue := stxPValue (stxStatistic data nb) (nb - 1)
    degreesOfFreedom := nb - 1
    isRandom := stxPValue (stxStatistic data nb) (nb - 1) > 0.05
    buckets := stxCounts data nb
    expected := stxExpected data nb }

/-! ## `nextBytes` (argument handling)

`nextBytes(count)` allocates `new Uint8Array(count)` — which throws a
`RangeError` for a negative length — and then fills it with `nextInt(256)`
values (stored mod 256 by the typed array). -/

inductive JsFailure where
  | rangeError
deriving DecidableEq

/-- `LCG.nextBytes` of a freshly constructed generator. -/
def lcgNextBytes (seed : Option Nat) (now : Nat) (count : Int) :
    Except JsFailure (List Nat) :=
  if count < 0 then .error .rangeError
  else .ok ((List.range count.toNat).map
    (fun i => (lcgNextIntAt seed now i 256 % 256).toNat))

/-- `ChaCha20.nextBytes` of a freshly constructed generator (it reads raw
keystream bytes, one per output byte). -/
def chachaNextBytesFresh (key : List Nat) (now : Nat) (count : Int) :
    Except JsFailure (List Nat) :=
  if count < 0 then .error .rangeError
  else .ok ((List.range count.toNat).map
    (fun i => (chachaNextByte (chachaByteStep^[i] (chachaStart key now))).1))

/-! ## Output-range lemmas shared by several claims -/

theorem lcgStep_lt (s : Nat) : lcgStep s < 2 ^ 32 := by
  unfold lcgStep
  omega

theorem lcgOutAt_bounds (seed : Option Nat) (now n : Nat) :
    0 ≤ lcgOutAt seed now n ∧ lcgOutAt seed now n < 1 := by
  unfold lcgOutAt
  constructor
  · positivity
  · rw [div_lt_one (by positivity)]
    have h : lcgStateAt seed now n < 2 ^ 32 := by
      unfold lcgStateAt
      rw [Function.iterate_succ_apply']
      exact lcgStep_lt _
    exact_mod_cast h

theorem mtTemper_lt (y : Nat) : mtTemper y < 2 ^ 32 := by
  unfold mtTemper
  exact Nat.mod_lt _ (by norm_num)

theorem mtOutAtEntropy_bounds (seed : Option Nat) (now n : Nat) :
    0 ≤ mtOutAtEntropy seed now n ∧ mtOutAtEntropy seed now n ≤ 1 := by
  unfold mtOutAtEntropy
  constructor
  · positivity
  · rw [div_le_one (by norm_num)]
    have h : mtRawAtEntropy seed now n < 2 ^ 32 := mtTemper_lt _
    have : (mtRawAtEntropy seed now n : ℚ) ≤ (4294967295 : ℚ) := by
      exact_mod_cast Nat.lt_succ_iff.mp (by exact_mod_cast h)
    simpa using this

theorem mtOutAtCplx_bounds (seed : Option Nat) (now n : Nat) :
    0 ≤ mtOutAtCplx seed now n ∧ mtOutAtCplx seed now n ≤ 1 := by
  unfold mtOutAtCplx
  constructor
  · positivity
  · rw [div_le_one (by norm_num)]
    have h : mtRawAtCplx seed now n < 2 ^ 32 := mtTemper_lt _
    have : (mtRawAtCplx seed now n : ℚ) ≤ (4294967295 : ℚ) := by
      exact_mod_cast Nat.lt_succ_iff.mp (by exact_mod_cast h)
    simpa using this

theorem chachaOutAt_bounds (key : List Nat) (now n : Nat) :
    0 ≤ chachaOutAt key now n ∧ chachaOutAt key now n ≤ 1 := by
  unfold chachaOutAt
  constructor
  · positivity
  · rw [div_le_one (by norm_num)]
    have h : chachaRawAt key now n < 2 ^ 32 := Nat.mod_lt _ (by norm_num)
    have : (chachaRawAt key now n : ℚ) ≤ (4294967295 : ℚ) := by
      exact_mod_cast Nat.lt_succ_iff.mp (by exact_mod_cast h)
    simpa using this

theorem xsOutAt_bounds (seed : Option Nat) (now n : Nat) :
    0 ≤ xsOutAt seed now n ∧ xsOutAt seed now n ≤ 1 := by
  unfold xsOutAt xsOut
  constructor
  · have := roundDouble_nonneg (xsResult (xsStateAt seed now n)) (by positivity)
    positivity
  · rw [div_le_one (by norm_num)]
    have hlt : (xsResult (xsStateAt seed now n) : Int) < 2 ^ 64 := by
      have : xsResult (xsStateAt seed now n) < 2 ^ 64 :=
        Nat.mod_lt _ (by norm_num)
      exact_mod_cast this
    have := roundDouble_le_two_pow (xsResult (xsStateAt seed now n))
      (by positivity) hlt
    exact_mod_cast this

/-- `Math.floor(q * k)` lies in `[0, k]` when `q ∈ [0, 1]` and `0 < k`. -/
theorem floorMul_bounds (q : ℚ) (k : Int) (h0 : 0 ≤ q) (h1 : q ≤ 1) (hk : 0 < k) :
    0 ≤ ⌊q * k⌋ ∧ ⌊q * k⌋ ≤ k := by
  have hk2 : (0 : ℚ) ≤ (k : ℚ) := by exact_mod_cast hk.le
  constructor
  · exact Int.le_floor.mpr (by push_cast; positivity)
  · have h2 : q * k ≤ (k : ℚ) := by nlinarith
    have h3 : ⌊q * (k : ℚ)⌋ ≤ ⌊((k : Int) : ℚ)⌋ := Int.floor_le_floor h2
    simpa using h3

/-- Strict version for outputs strictly below 1. -/
theorem floorMul_lt (q : ℚ) (k : Int) (h1 : q < 1) (hk : 0 < k) :
    ⌊q * k⌋ < k := by
  apply Int.floor_lt.mpr
  have hk2 : (0 : ℚ) < (k : ℚ) := by exact_mod_cast hk
  nlinarith

/-- `Math.floor(q * k)` lies in `[k, 0]` when `q ∈ [0, 1]` and `k ≤ 0`. -/
theorem floorMul_nonpos (q : ℚ) (k : Int) (h0 : 0 ≤ q) (h1 : q ≤ 1) (hk : k ≤ 0) :
    k ≤ ⌊q * k⌋ ∧ ⌊q * k⌋ ≤ 0 := by
  have hk2 : (k : ℚ) ≤ 0 := by exact_mod_cast hk
  constructor
  · have h2 : (k : ℚ) ≤ q * k := by nlinarith
    have h3 := Int.floor_le_floor h2
    simpa using h3
  · have h2 : q * (k : ℚ) ≤ 0 := mul_nonpos_iff.mpr (Or.inl ⟨h0, hk2⟩)
    have h3 := Int.floor_le_floor h2
    simpa using h3

/-! ## Claim C6 -/

/-- C6: for every 32-bit state value, one LCG step replaces the state by
`(1664525 * state + 1013904223) mod 2^32`, computed exactly (no double
rounding occurs), in both implementations, and `next()` returns the new
state divided by `2^32`. -/
theorem C6_lcg_recurrence_exact (s : Nat) (h : s < 2 ^ 32) :
    lcgStep s = (1664525 * s + 1013904223) % 2 ^ 32 ∧
    lcgStepCplx s = (1664525 * s + 1013904223) % 2 ^ 32 ∧
    lcgOutAt (some s) 0 0 = (((1664525 * s + 1013904223) % 2 ^ 32 : Nat) : ℚ) / 2 ^ 32 := by
  have hp : (1664525 * s : Nat) < 2 ^ 53 := by
    have h2 : 1664525 * s ≤ 1664525 * (2 ^ 32 - 1) := Nat.mul_le_mul_left _ (by omega)
    omega
  have key : lcgStep s = (1664525 * s + 1013904223) % 2 ^ 32 := by
    have e1 : roundDouble ((1664525 * s : Nat) : Int) = ((1664525 * s : Nat) : Int) :=
      roundDouble_of_small _ (by simpa using hp)
    have e2 : roundDouble (((1664525 * s : Nat) : Int) + ((1013904223 : Nat) : Int)) =
        ((1664525 * s : Nat) : Int) + ((1013904223 : Nat) : Int) :=
      roundDouble_of_small _ (by omega)
    unfold lcgStep lcgA lcgC
    rw [e1, e2]
    omega
  refine ⟨key, key, ?_⟩
  have hst : lcgStateAt (some s) 0 0 = lcgStep s := by
    simp [lcgStateAt, lcgInit]
  rw [lcgOutAt, hst, key]

/-- Witness for C6 at state 12345. -/
theorem C6_witness : lcgStep 12345 = (1664525 * 12345 + 1013904223) % 2 ^ 32 :=
  (C6_lcg_recurrence_exact 12345 (by norm_num)).1

/-! ## Claim C4 -/

/-- C4 (amended): no generator validates its `nextInt` argument — for
`max ≤ 0` every variant returns `Math.floor(next() * max) ∈ [max, 0]`
normally instead of failing with `InvalidArgument`; `nextBytes(count)` with
`count < 0` fails only with the typed-array `RangeError`, and for
`count ≥ 0` returns `count` bytes without error. -/
theorem C4_amended_no_validation (s sb : Nat) (key : List Nat) (now n : Nat)
    (k count : Int) (hk : k ≤ 0) :
    (k ≤ lcgNextIntAt (some s) now n k ∧ lcgNextIntAt (some s) now n k ≤ 0) ∧
    (k ≤ mtNextIntAtEntropy (some sb) now n k ∧ mtNextIntAtEntropy (some sb) now n k ≤ 0) ∧
    (k ≤ mtNextIntAtCplx (some sb) now n k ∧ mtNextIntAtCplx (some sb) now n k ≤ 0) ∧
    (k ≤ chachaNextIntAt key now n k ∧ chachaNextIntAt key now n k ≤ 0) ∧
    (k ≤ xsNextIntAt (some sb) now n k ∧ xsNextIntAt (some sb) now n k ≤ 0) ∧
    (count < 0 → lcgNextBytes (some s) now count = .error .rangeError ∧
      chachaNextBytesFresh key now count = .error .rangeError) ∧
    (0 ≤ count → (∃ bs, lcgNextBytes (some s) now count = .ok bs ∧
        bs.length = count.toNat) ∧
      (∃ bs, chachaNextBytesFresh key now count = .ok bs ∧ bs.length = count.toNat)) := by
  obtain ⟨hl0, hl1⟩ := lcgOutAt_bounds (some s) now n
  obtain ⟨hm0, hm1⟩ := mtOutAtEntropy_bounds (some sb) now n
  obtain ⟨hc0, hc1⟩ := mtOutAtCplx_bounds (some sb) now n
  obtain ⟨hh0, hh1⟩ := chachaOutAt_bounds key now n
  obtain ⟨hx0, hx1⟩ := xsOutAt_bounds (some sb) now n
  refine ⟨floorMul_nonpos _ _ hl0 hl1.le hk, floorMul_nonpos _ _ hm0 hm1 hk,
    floorMul_nonpos _ _ hc0 hc1 hk, floorMul_nonpos _ _ hh0 hh1 hk,
    floorMul_nonpos _ _ hx0 hx1 hk, ?_, ?_⟩
  · intro hneg
    constructor
    · rw [lcgNextBytes, if_pos hneg]
    · rw [chachaNextBytesFresh, if_pos hneg]
  · intro hpos
    constructor
    · exact ⟨_, by rw [lcgNextBytes, if_neg (not_lt.mpr hpos)], by simp⟩
    · exact ⟨_, by rw [chachaNextBytesFresh, if_neg (not_lt.mpr hpos)], by simp⟩

/-- Witness for C4 at `max = 0`, `count = -1` for the LCG. -/
theorem C4_witness :
    ((0 : Int) ≤ lcgNextIntAt (some 1) 0 0 0 ∧ lcgNextIntAt (some 1) 0 0 0 ≤ 0) ∧
    lcgNextBytes (some 1) 0 (-1) = .error .rangeError :=
  ⟨(C4_amended_no_validation 1 1 [] 0 0 0 (-1) le_rfl).1,
   ((C4_amended_no_validation 1 1 [] 0 0 0 (-1) le_rfl).2.2.2.2.2.1 (by norm_num)).1⟩

/-- C4 counterexample: the claim demands that `nextInt(maxExclusive)` fail
with an `InvalidArgument` error whenever `maxExclusive ≤ 0`, but
`LCG.nextInt(0)` simply returns the value 0 — no error path exists in any
generator's `nextInt`. -/
theorem C4_counterexample : lcgNextIntAt (some 12345) 0 0 0 = 0 := by
  unfold lcgNextIntAt
  norm_num

/-! ## Claim C2 -/

/-- C2 (amended): with an explicit seed, LCG, both MT19937s and
XorShift128+ produce output sequences independent of the construction-time
environment (`Date.now()`): two instances with the same seed agree on every
draw even when constructed at arbitrary different clock values `t1`, `t2`.
The `ChaCha20` generator of `lib/entropy.ts` mixes `Date.now()` into nonce
words 14-15, so two instances with the same key agree when (and, by C2's
counterexample, in general only when) their construction timestamps
coincide. -/
theorem C2_amended_determinism (s sb : Nat) (key : List Nat) (t1 t2 n : Nat) :
    lcgOutAt (some s) t1 n = lcgOutAt (some s) t2 n ∧
    mtOutAtEntropy (some sb) t1 n = mtOutAtEntropy (some sb) t2 n ∧
    mtOutAtCplx (some sb) t1 n = mtOutAtCplx (some sb) t2 n ∧
    xsOutAt (some sb) t1 n = xsOutAt (some sb) t2 n ∧
    (t1 = t2 → chachaOutAt key t1 n = chachaOutAt key t2 n) := by
  refine ⟨?_, ?_, ?_, ?_, fun h => by rw [h]⟩
  · simp only [lcgOutAt, lcgStateAt, lcgInit]
  · simp only [mtOutAtEntropy, mtRawAtEntropy, mtInitEntropy, Option.getD_some]
  · simp only [mtOutAtCplx, mtRawAtCplx, mtInitCplx, Option.getD_some]
  · simp only [xsOutAt, xsStateAt, xsInit, Option.getD_some]

/-- Witness for C2: the same seed at two different construction clock
values yields the same draw for the seeded variants, and the same clock
value for ChaCha20. -/
theorem C2_witness :
    lcgOutAt (some 7) 11 3 = lcgOutAt (some 7) 42 3 ∧
    xsOutAt (some 5) 0 2 = xsOutAt (some 5) 99 2 ∧
    chachaOutAt [1, 2] 5 2 = chachaOutAt [1, 2] 5 2 :=
  ⟨(C2_amended_determinism 7 0 [] 11 42 3).1,
   (C2_amended_determinism 0 5 [] 0 99 2).2.2.2.1,
   (C2_amended_determinism 0 0 [1, 2] 5 5 2).2.2.2.2 rfl⟩

/-- C2 counterexample: the stream-cipher generator's output is *not* a
function of the key alone — two `ChaCha20` instances constructed with the
same 32-byte zero key but at clock values 0 and 1 differ already at the
first draw, because `Date.now()` enters state words 14-15. -/
theorem C2_counterexample :
    chachaOutAt (List.replicate 32 0) 0 0 ≠ chachaOutAt (List.replicate 32 0) 1 0 := by
  have h1 : chachaRawAt (List.replicate 32 0) 0 0 = 2917185654 := by
    set_option maxRecDepth 40000 in decide
  have h2 : chachaRawAt (List.replicate 32 0) 1 0 = 3604955119 := by
    set_option maxRecDepth 40000 in decide
  rw [chachaOutAt, chachaOutAt, h1, h2]
  norm_num

/-- The state arrays reached by the `src/modules/complexity.ts` MT19937 at
seed 5751081: `mtW0` is the seeded array, `mtW1`-`mtW6` are snapshots of the
in-place twist loop after 104, 208, 312, 416, 520 and 624 iterations.  They
let the kernel evaluate the machine in bounded-depth chunks. -/
def mtW0 : List Nat := [5751081, 2904368686, 2166463326, 4260005711, 1929579776, 3375409770, 1615096947, 2821049089, 1638052663, 1167235671, 1741220344, 3913912392, 4266332323, 1944268589, 655632490, 125479905, 948451541, 2650499354, 3742781066, 3851636000, 1197091299, 3827988543, 1488817090, 2296938246, 2563719340, 1612948159, 2606293776, 2836674613, 1150328015, 2728008547, 1260041827, 1104307913, 3229324552, 3402739832, 4085871529, 2244385845, 2322993367, 560570670, 2251306316, 447596013, 3941985193, 2009723963, 2079745292, 61133644, 2083457320, 3063189082, 2368815334, 107257379, 1967660799, 3741067367, 903181222, 2846127793, 3024986067, 937289386, 3517119304, 1893025742, 4064025571, 4290895769, 3176964604, 3727611761, 3051684406, 1358148289, 1041122814, 822643573, 389259881, 2250785966, 3948356638, 3028272308, 3215458834, 1423138965, 2854244010, 1869541519, 3512919630, 1365184938, 2594405313, 638594874, 1883155502, 1546130904, 4101029867, 3867598551, 2822856180, 3066869855, 4093215235, 1442990675, 3370857646, 2427936150, 947396538, 3866431161, 1881561530, 490961440, 2128236282, 3980557410, 2188508065, 471302828, 3437795898, 2514246108, 689521398, 1485246831, 396345032, 1721191755, 3339982998, 3559419950, 1698125607, 4135762021, 1225479846, 3043594060, 3816310832, 2591868810, 2394587412, 3997414427, 1220470246, 2578076562, 3487238208, 3064667616, 3450780828, 3845816878, 1257926965, 2748284409, 19203965, 889772488, 4253152352, 46360200, 3601742882, 2178048640, 1481011142, 2282526976, 1911058504, 852123212, 4200718460, 3778709916, 118973245, 3271609492, 2834204439, 3656943822, 970894951, 956362282, 939028762, 423725515, 1915093153, 3820216235, 373302740, 2488885553, 2293015725, 2768740506, 3038491784, 1867650307, 1135500380, 3317904964, 3993069975, 4212841465, 3978794040, 2962099934, 3858995556, 1381279036, 142464683, 3023320338, 1013874668, 159499449, 2676530843, 4025840636, 3336780603, 1356813753, 1694779962, 302505194, 347693814, 3755192755, 3026995990, 2691912587, 435373749, 3099902738, 1198818810, 445198258, 1216615398, 1242790352, 647424291, 541243006, 2473422438, 4009497125, 3056828336, 126198765, 4092494389, 943867395, 3618781925, 522212213, 949848801, 1570845822, 959098325, 28349124, 3700476944, 450604860, 1142374250, 772360438, 3899617230, 3781611938, 2603015751, 858496764, 825136688, 2970677685, 3171634425, 2693051086, 1268627268, 1529887746, 2990164217, 1693064914, 4137817355, 4268463349, 3454233564, 4136429258, 3365379869, 1238029735, 2296783184, 2883455021, 2923651679, 3166999686, 1822768362, 423087246, 1331540702, 1825171924, 983514851, 3585100650, 46658121, 2240456874, 1619948326, 3991162434, 2562369925, 3171885604, 2806566880, 4264032013, 1381824362, 654500124, 3864972530, 3853178108, 1868267651, 1114457651, 3003872420, 4252753001, 163098814, 2846190051, 1158885299, 3941995561, 2835771266, 766869105, 1247566983, 3550361553, 1208576206, 2792759712, 671676384, 3746606167, 1834545692, 2557741930, 1874536706, 2698955306, 422390468, 4128293969, 65754968, 16748215, 1127497267, 1145261243, 2209534052, 1641860929, 1908868420, 2788819518, 4290313906, 2267035100, 2912620446, 3066799509, 1427580061, 3304910487, 159602032, 2677646909, 1364152041, 2380024471, 3253086937, 3501429523, 905746018, 3989817277, 2735766794, 4087520573, 2583705740, 1413238557, 2078618404, 2345597874, 254442890, 1605919373, 844090968, 1397850581, 2054073794, 2365385230, 1868350428, 729123922, 2075541372, 3477860980, 1123637527, 2493967571, 2689484955, 2884339332, 345229830, 1133898631, 3722093320, 2714777474, 3378079404, 3942787896, 4086997621, 372064189, 1898007489, 2246878193, 2042542865, 4157300355, 776915380, 3807570233, 1631325976, 1987401492, 3313015169, 2101945219, 1651086724, 2270112692, 3130697226, 1276496485, 1722048178, 2423007454, 3398294540, 757389868, 260022430, 1990258073, 2345408060, 589166011, 2138048269, 2085369091, 494730514, 154958691, 647604825, 2872629096, 2493167646, 1180016729, 352279558, 4247291309, 2689129718, 900317589, 732241435, 3422442746, 4120889489, 2120107247, 2560004412, 3889396941, 4124867742, 2734174282, 3485046210, 3382927232, 3693529867, 2335007621, 3755771041, 1298728777, 1380804808, 2401036718, 3811130942, 557790324, 1345177384, 3754132882, 3180678299, 1444158148, 2409954849, 2936930360, 138093132, 3837998439, 1582470624, 1844546610, 4256734349, 360694645, 2402597785, 1030813848, 2663607658, 377410427, 1804813307, 2488311063, 3480303551, 1151507107, 2874520930, 3967873113, 3656711932, 2803372822, 3292609632, 3250769804, 3017305065, 3717224502, 1855597417, 870697353, 3242317199, 1628777919, 185056122, 364331687, 3934891113, 2759573849, 3435789679, 1648609573, 3143540926, 1165887415, 3671290458, 705478570, 1598003616, 3166029588, 1960596286, 3727855724, 2152162397, 2742710798, 883649616, 986221861, 4239097391, 2036487411, 3990816530, 2436686926, 826720150, 3532316105, 2852166734, 3153483673, 3327100101, 4107753917, 1949243286, 1666522932, 4105940619, 606774603, 1079335739, 102041991, 3742827241, 554263033, 3354454501, 1015177063, 3025060941, 4232756182, 2262047157, 2607945184, 1390843352, 3222880588, 1796410587, 3260726707, 2904557602, 719083091, 862288755, 2050965780, 3093031935, 494502280, 2449073248, 3917319779, 3025833370, 2628269747, 4269362833, 249963351, 3038151185, 268598846, 1111293494, 3986472052, 4210232245, 757204625, 1575432697, 3283906717, 3454991900, 740416258, 1553824658, 910716360, 2378914226, 2013893691, 28346030, 964313715, 1878049837, 4029477675, 1442076824, 2768230190, 1967813166, 281228638, 841309674, 291916071, 244432185, 4132579924, 57951531, 2651868880, 3596319924, 618079502, 2534940258, 3647299005, 3160058836, 3499447117, 1671470502, 105747396, 3138073142, 414491751, 1578171783, 2869607875, 3608160267, 4144239887, 1194572708, 2220316418, 1426347242, 1385448866, 2570630715, 3564332906, 3015573339, 520839436, 230733740, 621249741, 3215203283, 1566102632, 2023161953, 3848701909, 1593778020, 2050453968, 746570349, 980356090, 1192134044, 2978397676, 3209645794, 2476736605, 4109106809, 1503703585, 3130615968, 3958569963, 3808726154, 2747254032, 916284446, 729714651, 921171565, 2237632520, 3943641082, 964243526, 1636795304, 817063096, 2562012836, 3225905035, 1196139190, 1105994562, 2615002751, 1461925474, 2041868833, 874784947, 2364595123, 779053034, 2146843496, 768582532, 1510549804, 2296468954, 280983634, 4113325173, 3342181034, 181706698, 2783717072, 2125444345, 2515738616, 2631821763, 983499847, 1274523942, 3533161863, 1697682233, 2440761150, 4216856787, 4177806392, 1221558384, 4105250751, 3192671063, 3552393141, 443638523, 3046203957, 1399599330, 3926771391, 1978533469, 3839082622, 2566445188, 4189529362, 3079584490, 3383617470, 3033240776, 2423771114, 2900373697, 3353385513, 4249046733, 6051714, 3419478663, 3125550162, 3244162511, 2541440956, 394602039, 3363603701, 654450001, 2126310457, 813378653, 2111916023, 4179496021, 4224640566, 3108385330, 1222475578, 2803287954, 1371065884, 50452670, 1105867588, 3652790664, 3289762087, 3040387461, 746191765, 2429944092, 1524203818, 3927767884, 320171905, 2024278332, 2213039209, 2524474256, 1477547252, 2522473476, 816328378, 4067556287, 3637768074, 1334629484, 2335778401, 1405887088, 3943633399, 993635239, 1613634119, 3727283715, 3825692774, 2698536768, 4017164658, 537419006, 3489833120, 2708839866, 2497098756, 322322123, 4153305989, 1533355085]

def mtW1 : List Nat := [1015164093, 531584015, 1531458668, 224253374, 4205495641, 1768809147, 778053457, 3715269908, 2164879569, 3478063827, 1304861911, 200425372, 1908785927, 583838627, 1212102886, 793522427, 3037455124, 2848236416, 2250178349, 2391454648, 3360199668, 2565172074, 543070920, 204667757, 4010567687, 3535500129, 3968585020, 1018173277, 3032998409, 1221275555, 1168849005, 2800341809, 4263169500, 2989137107, 468893577, 3072373871, 2465099044, 2922910340, 4269933690, 2669100664, 2563967958, 2241911161, 481028142, 2951635188, 4063742286, 4072812009, 1184024957, 1574302001, 3096479675, 4026284994, 2648241593, 2165473536, 3060944673, 3525473809, 1430824310, 4260465879, 626274190, 2470489826, 3661496421, 108001929, 3342402679, 2462874445, 4186267998, 2468472645, 980312100, 442193442, 2853376369, 169892241, 1470027707, 1616532859, 4269604294, 445918925, 2043265522, 2596843526, 2774154697, 996873020, 2953069628, 1969984414, 3466394298, 3275272344, 453751117, 1554962954, 580699835, 1205143537, 1310080271, 3879157227, 2995164132, 637784410, 2779447507, 3900510070, 3248827198, 2667837099, 3395065428, 1936726519, 410675532, 3451131712, 1631084290, 3094487103, 3041425270, 776649703, 1326693594, 1412890783, 4279318661, 470985522, 1225479846, 3043594060, 3816310832, 2591868810, 2394587412, 3997414427, 1220470246, 2578076562, 3487238208, 3064667616, 3450780828, 3845816878, 1257926965, 2748284409, 19203965, 889772488, 4253152352, 46360200, 3601742882, 2178048640, 1481011142, 2282526976, 1911058504, 852123212, 4200718460, 3778709916, 118973245, 3271609492, 2834204439, 3656943822, 970894951, 956362282, 939028762, 423725515, 1915093153, 3820216235, 373302740, 2488885553, 2293015725, 2768740506, 3038491784, 1867650307, 1135500380, 3317904964, 3993069975, 4212841465, 3978794040, 2962099934, 3858995556, 1381279036, 142464683, 3023320338, 1013874668, 159499449, 2676530843, 4025840636, 3336780603, 1356813753, 1694779962, 302505194, 347693814, 3755192755, 3026995990, 2691912587, 435373749, 3099902738, 1198818810, 445198258, 1216615398, 1242790352, 647424291, 541243006, 2473422438, 4009497125, 3056828336, 126198765, 4092494389, 943867395, 3618781925, 522212213, 949848801, 1570845822, 959098325, 28349124, 3700476944, 450604860, 1142374250, 772360438, 3899617230, 3781611938, 2603015751, 858496764, 825136688, 2970677685, 3171634425, 2693051086, 1268627268, 1529887746, 2990164217, 1693064914, 4137817355, 4268463349, 3454233564, 4136429258, 3365379869, 1238029735, 2296783184, 2883455021, 2923651679, 3166999686, 1822768362, 423087246, 1331540702, 1825171924, 983514851, 3585100650, 46658121, 2240456874, 1619948326, 3991162434, 2562369925, 3171885604, 2806566880, 4264032013, 1381824362, 654500124, 3864972530, 3853178108, 1868267651, 1114457651, 3003872420, 4252753001, 163098814, 2846190051, 1158885299, 3941995561, 2835771266, 766869105, 1247566983, 3550361553, 1208576206, 2792759712, 671676384, 3746606167, 1834545692, 2557741930, 1874536706, 2698955306, 422390468, 4128293969, 65754968, 16748215, 1127497267, 1145261243, 2209534052, 1641860929, 1908868420, 2788819518, 4290313906, 2267035100, 2912620446, 3066799509, 1427580061, 3304910487, 159602032, 2677646909, 1364152041, 2380024471, 3253086937, 3501429523, 905746018, 3989817277, 2735766794, 4087520573, 2583705740, 1413238557, 2078618404, 2345597874, 254442890, 1605919373, 844090968, 1397850581, 2054073794, 2365385230, 1868350428, 729123922, 2075541372, 3477860980, 1123637527, 2493967571, 2689484955, 2884339332, 345229830, 1133898631, 3722093320, 2714777474, 3378079404, 3942787896, 4086997621, 372064189, 1898007489, 2246878193, 2042542865, 4157300355, 776915380, 3807570233, 1631325976, 1987401492, 3313015169, 2101945219, 1651086724, 2270112692, 3130697226, 1276496485, 1722048178, 2423007454, 3398294540, 757389868, 260022430, 1990258073, 2345408060, 589166011, 2138048269, 2085369091, 494730514, 154958691, 647604825, 2872629096, 2493167646, 1180016729, 352279558, 4247291309, 2689129718, 900317589, 732241435, 3422442746, 4120889489, 2120107247, 2560004412, 3889396941, 4124867742, 2734174282, 3485046210, 3382927232, 3693529867, 2335007621, 3755771041, 1298728777, 1380804808, 2401036718, 3811130942, 557790324, 1345177384, 3754132882, 3180678299, 1444158148, 2409954849, 2936930360, 138093132, 3837998439, 1582470624, 1844546610, 4256734349, 360694645, 2402597785, 1030813848, 2663607658, 377410427, 1804813307, 2488311063, 3480303551, 1151507107, 2874520930, 3967873113, 3656711932, 2803372822, 3292609632, 3250769804, 3017305065, 3717224502, 1855597417, 870697353, 3242317199, 1628777919, 185056122, 364331687, 3934891113, 2759573849, 3435789679, 1648609573, 3143540926, 1165887415, 3671290458, 705478570, 1598003616, 3166029588, 1960596286, 3727855724, 2152162397, 2742710798, 883649616, 986221861, 4239097391, 2036487411, 3990816530, 2436686926, 826720150, 3532316105, 2852166734, 3153483673, 3327100101, 4107753917, 1949243286, 1666522932, 4105940619, 606774603, 1079335739, 102041991, 3742827241, 554263033, 3354454501, 1015177063, 3025060941, 4232756182, 2262047157, 2607945184, 1390843352, 3222880588, 1796410587, 3260726707, 2904557602, 719083091, 862288755, 2050965780, 3093031935, 494502280, 2449073248, 3917319779, 3025833370, 2628269747, 4269362833, 249963351, 3038151185, 268598846, 1111293494, 3986472052, 4210232245, 757204625, 1575432697, 3283906717, 3454991900, 740416258, 1553824658, 910716360, 2378914226, 2013893691, 28346030, 964313715, 1878049837, 4029477675, 1442076824, 2768230190, 1967813166, 281228638, 841309674, 291916071, 244432185, 4132579924, 57951531, 2651868880, 3596319924, 618079502, 2534940258, 3647299005, 3160058836, 3499447117, 1671470502, 105747396, 3138073142, 414491751, 1578171783, 2869607875, 3608160267, 4144239887, 1194572708, 2220316418, 1426347242, 1385448866, 2570630715, 3564332906, 3015573339, 520839436, 230733740, 621249741, 3215203283, 1566102632, 2023161953, 3848701909, 1593778020, 2050453968, 746570349, 980356090, 1192134044, 2978397676, 3209645794, 2476736605, 4109106809, 1503703585, 3130615968, 3958569963, 3808726154, 2747254032, 916284446, 729714651, 921171565, 2237632520, 3943641082, 964243526, 1636795304, 817063096, 2562012836, 3225905035, 1196139190, 1105994562, 2615002751, 1461925474, 2041868833, 874784947, 2364595123, 779053034, 2146843496, 768582532, 1510549804, 2296468954, 280983634, 4113325173, 3342181034, 181706698, 2783717072, 2125444345, 2515738616, 2631821763, 983499847, 1274523942, 3533161863, 1697682233, 2440761150, 4216856787, 4177806392, 1221558384, 4105250751, 3192671063, 3552393141, 443638523, 3046203957, 1399599330, 3926771391, 1978533469, 3839082622, 2566445188, 4189529362, 3079584490, 3383617470, 3033240776, 2423771114, 2900373697, 3353385513, 4249046733, 6051714, 3419478663, 3125550162, 3244162511, 2541440956, 394602039, 3363603701, 654450001, 2126310457, 813378653, 2111916023, 4179496021, 4224640566, 3108385330, 1222475578, 2803287954, 1371065884, 50452670, 1105867588, 3652790664, 3289762087, 3040387461, 746191765, 2429944092, 1524203818, 3927767884, 320171905, 2024278332, 2213039209, 2524474256, 1477547252, 2522473476, 816328378, 4067556287, 3637768074, 1334629484, 2335778401, 1405887088, 3943633399, 993635239, 1613634119, 3727283715, 3825692774, 2698536768, 4017164658, 537419006, 3489833120, 2708839866, 2497098756, 322322123, 4153305989, 1533355085]

def mtW2 : List Nat := [1015164093, 531584015, 1531458668, 224253374, 4205495641, 1768809147, 778053457, 3715269908, 2164879569, 3478063827, 1304861911, 200425372, 1908785927, 583838627, 1212102886, 793522427, 3037455124, 2848236416, 2250178349, 2391454648, 3360199668, 2565172074, 543070920, 204667757, 4010567687, 3535500129, 3968585020, 1018173277, 3032998409, 1221275555, 1168849005, 2800341809, 4263169500, 2989137107, 468893577, 3072373871, 2465099044, 2922910340, 4269933690, 2669100664, 2563967958, 2241911161, 481028142, 2951635188, 4063742286, 4072812009, 1184024957, 1574302001, 3096479675, 4026284994, 2648241593, 2165473536, 3060944673, 3525473809, 1430824310, 4260465879, 626274190, 2470489826, 3661496421, 108001929, 3342402679, 2462874445, 4186267998, 2468472645, 980312100, 442193442, 2853376369, 169892241, 1470027707, 1616532859, 4269604294, 445918925, 2043265522, 2596843526, 2774154697, 996873020, 2953069628, 1969984414, 3466394298, 3275272344, 453751117, 1554962954, 580699835, 1205143537, 1310080271, 3879157227, 2995164132, 637784410, 2779447507, 3900510070, 3248827198, 2667837099, 3395065428, 1936726519, 410675532, 3451131712, 1631084290, 3094487103, 3041425270, 776649703, 1326693594, 1412890783, 4279318661, 470985522, 4291969139, 792935292, 923341333, 1797423847, 3561382184, 592574319, 3176371237, 3634547394, 3371536045, 2453446711, 725480246, 1189929189, 1662907848, 983482347, 3107695092, 140353070, 1780432031, 498133116, 3317080392, 2267813913, 1031765190, 427539340, 701909918, 2777007770, 2967085893, 2647172087, 1617708296, 1453471019, 1004499461, 3159594445, 681861030, 2534204222, 3150386128, 3756887015, 2233400462, 287914950, 465917341, 3454114523, 2813299768, 2646112494, 3832882580, 2218461438, 1548627931, 2080054252, 2019276000, 1275907675, 330348105, 2710964533, 203080103, 206394548, 3779213914, 2805169102, 3574059763, 1652414509, 3384210089, 700717815, 3944118520, 2266187560, 1517280919, 3763435460, 3272568411, 3202737653, 1372176798, 742798999, 2884426595, 2853676355, 3113157393, 3023423001, 2313784361, 1302552167, 3982628338, 166387889, 631743306, 3780486026, 462920934, 931446393, 3534534121, 2058168664, 4053435444, 4227504534, 514569826, 4168917442, 4190520631, 3582361662, 4096517548, 1792467087, 2953995241, 1703901691, 1941090415, 2507271352, 2150426358, 3699540543, 884500864, 3958697270, 3230947451, 1058495112, 3347375437, 2466315042, 182257237, 565311027, 1883574581, 1054875930, 3978270561, 3454751211, 3365379869, 1238029735, 2296783184, 2883455021, 2923651679, 3166999686, 1822768362, 423087246, 1331540702, 1825171924, 983514851, 3585100650, 46658121, 2240456874, 1619948326, 3991162434, 2562369925, 3171885604, 2806566880, 4264032013, 1381824362, 654500124, 3864972530, 3853178108, 1868267651, 1114457651, 3003872420, 4252753001, 163098814, 2846190051, 1158885299, 3941995561, 2835771266, 766869105, 1247566983, 3550361553, 1208576206, 2792759712, 671676384, 3746606167, 1834545692, 2557741930, 1874536706, 2698955306, 422390468, 4128293969, 65754968, 16748215, 1127497267, 1145261243, 2209534052, 1641860929, 1908868420, 2788819518, 4290313906, 2267035100, 2912620446, 3066799509, 1427580061, 3304910487, 159602032, 2677646909, 1364152041, 2380024471, 3253086937, 3501429523, 905746018, 3989817277, 2735766794, 4087520573, 2583705740, 1413238557, 2078618404, 2345597874, 254442890, 1605919373, 844090968, 1397850581, 2054073794, 2365385230, 1868350428, 729123922, 2075541372, 3477860980, 1123637527, 2493967571, 2689484955, 2884339332, 345229830, 1133898631, 3722093320, 2714777474, 3378079404, 3942787896, 4086997621, 372064189, 1898007489, 2246878193, 2042542865, 4157300355, 776915380, 3807570233, 1631325976, 1987401492, 3313015169, 2101945219, 1651086724, 2270112692, 3130697226, 1276496485, 1722048178, 2423007454, 3398294540, 757389868, 260022430, 1990258073, 2345408060, 589166011, 2138048269, 2085369091, 494730514, 154958691, 647604825, 2872629096, 2493167646, 1180016729, 352279558, 4247291309, 2689129718, 900317589, 732241435, 3422442746, 4120889489, 2120107247, 2560004412, 3889396941, 4124867742, 2734174282, 3485046210, 3382927232, 3693529867, 2335007621, 3755771041, 1298728777, 1380804808, 2401036718, 3811130942, 557790324, 1345177384, 3754132882, 3180678299, 1444158148, 2409954849, 2936930360, 138093132, 3837998439, 1582470624, 1844546610, 4256734349, 360694645, 2402597785, 1030813848, 2663607658, 377410427, 1804813307, 2488311063, 3480303551, 1151507107, 2874520930, 3967873113, 3656711932, 2803372822, 3292609632, 3250769804, 3017305065, 3717224502, 1855597417, 870697353, 3242317199, 1628777919, 185056122, 364331687, 3934891113, 2759573849, 3435789679, 1648609573, 3143540926, 1165887415, 3671290458, 705478570, 1598003616, 3166029588, 1960596286, 3727855724, 2152162397, 2742710798, 883649616, 986221861, 4239097391, 2036487411, 3990816530, 2436686926, 826720150, 3532316105, 2852166734, 3153483673, 3327100101, 4107753917, 1949243286, 1666522932, 4105940619, 606774603, 1079335739, 102041991, 3742827241, 554263033, 3354454501, 1015177063, 3025060941, 4232756182, 2262047157, 2607945184, 1390843352, 3222880588, 1796410587, 3260726707, 2904557602, 719083091, 862288755, 2050965780, 3093031935, 494502280, 2449073248, 3917319779, 3025833370, 2628269747, 4269362833, 249963351, 3038151185, 268598846, 1111293494, 3986472052, 4210232245, 757204625, 1575432697, 3283906717, 3454991900, 740416258, 1553824658, 910716360, 2378914226, 2013893691, 28346030, 964313715, 1878049837, 4029477675, 1442076824, 2768230190, 1967813166, 281228638, 841309674, 291916071, 244432185, 4132579924, 57951531, 2651868880, 3596319924, 618079502, 2534940258, 3647299005, 3160058836, 3499447117, 1671470502, 105747396, 3138073142, 414491751, 1578171783, 2869607875, 3608160267, 4144239887, 1194572708, 2220316418, 1426347242, 1385448866, 2570630715, 3564332906, 3015573339, 520839436, 230733740, 621249741, 3215203283, 1566102632, 2023161953, 3848701909, 1593778020, 2050453968, 746570349, 980356090, 1192134044, 2978397676, 3209645794, 2476736605, 4109106809, 1503703585, 3130615968, 3958569963, 3808726154, 2747254032, 916284446, 729714651, 921171565, 2237632520, 3943641082, 964243526, 1636795304, 817063096, 2562012836, 3225905035, 1196139190, 1105994562, 2615002751, 1461925474, 2041868833, 874784947, 2364595123, 779053034, 2146843496, 768582532, 1510549804, 2296468954, 280983634, 4113325173, 3342181034, 181706698, 2783717072, 2125444345, 2515738616, 2631821763, 983499847, 1274523942, 3533161863, 1697682233, 2440761150, 4216856787, 4177806392, 1221558384, 4105250751, 3192671063, 3552393141, 443638523, 3046203957, 1399599330, 3926771391, 1978533469, 3839082622, 2566445188, 4189529362, 3079584490, 3383617470, 3033240776, 2423771114, 2900373697, 3353385513, 4249046733, 6051714, 3419478663, 3125550162, 3244162511, 2541440956, 394602039, 3363603701, 654450001, 2126310457, 813378653, 2111916023, 4179496021, 4224640566, 3108385330, 1222475578, 2803287954, 1371065884, 50452670, 1105867588, 3652790664, 3289762087, 3040387461, 746191765, 2429944092, 1524203818, 3927767884, 320171905, 2024278332, 2213039209, 2524474256, 1477547252, 2522473476, 816328378, 4067556287, 3637768074, 1334629484, 2335778401, 1405887088, 3943633399, 993635239, 1613634119, 3727283715, 3825692774, 2698536768, 4017164658, 537419006, 3489833120, 2708839866, 2497098756, 322322123, 4153305989, 1533355085]

def mtW3 : List Nat := [1015164093, 531584015, 1531458668, 224253374, 4205495641, 1768809147, 778053457, 3715269908, 2164879569, 3478063827, 1304861911, 200425372, 1908785927, 583838627, 1212102886, 793522427, 3037455124, 2848236416, 2250178349, 2391454648, 3360199668, 2565172074, 543070920, 204667757, 4010567687, 3535500129, 3968585020, 1018173277, 3032998409, 1221275555, 1168849005, 2800341809, 4263169500, 2989137107, 468893577, 3072373871, 2465099044, 2922910340, 4269933690, 2669100664, 2563967958, 2241911161, 481028142, 2951635188, 4063742286, 4072812009, 1184024957, 1574302001, 3096479675, 4026284994, 2648241593, 2165473536, 3060944673, 3525473809, 1430824310, 4260465879, 626274190, 2470489826, 3661496421, 108001929, 3342402679, 2462874445, 4186267998, 2468472645, 980312100, 442193442, 2853376369, 169892241, 1470027707, 1616532859, 4269604294, 445918925, 2043265522, 2596843526, 2774154697, 996873020, 2953069628, 1969984414, 3466394298, 3275272344, 453751117, 1554962954, 580699835, 1205143537, 1310080271, 3879157227, 2995164132, 637784410, 2779447507, 3900510070, 3248827198, 2667837099, 3395065428, 1936726519, 410675532, 3451131712, 1631084290, 3094487103, 3041425270, 776649703, 1326693594, 1412890783, 4279318661, 470985522, 4291969139, 792935292, 923341333, 1797423847, 3561382184, 592574319, 3176371237, 3634547394, 3371536045, 2453446711, 725480246, 1189929189, 1662907848, 983482347, 3107695092, 140353070, 1780432031, 498133116, 3317080392, 2267813913, 1031765190, 427539340, 701909918, 2777007770, 2967085893, 2647172087, 1617708296, 1453471019, 1004499461, 3159594445, 681861030, 2534204222, 3150386128, 3756887015, 2233400462, 287914950, 465917341, 3454114523, 2813299768, 2646112494, 3832882580, 2218461438, 1548627931, 2080054252, 2019276000, 1275907675, 330348105, 2710964533, 203080103, 206394548, 3779213914, 2805169102, 3574059763, 1652414509, 3384210089, 700717815, 3944118520, 2266187560, 1517280919, 3763435460, 3272568411, 3202737653, 1372176798, 742798999, 2884426595, 2853676355, 3113157393, 3023423001, 2313784361, 1302552167, 3982628338, 166387889, 631743306, 3780486026, 462920934, 931446393, 3534534121, 2058168664, 4053435444, 4227504534, 514569826, 4168917442, 4190520631, 3582361662, 4096517548, 1792467087, 2953995241, 1703901691, 1941090415, 2507271352, 2150426358, 3699540543, 884500864, 3958697270, 3230947451, 1058495112, 3347375437, 2466315042, 182257237, 565311027, 1883574581, 1054875930, 3978270561, 3454751211, 261890483, 3701538594, 2204852389, 1158686609, 229533747, 2640154498, 933383648, 1199620904, 3897369321, 1614831560, 2315272949, 924473481, 583862443, 2688915763, 2542254747, 1099124761, 1303490521, 2754219125, 3179179796, 1437357832, 204350593, 1751601685, 2139668416, 336573895, 3511939453, 937794819, 986176511, 3319081102, 1117064957, 3058154449, 2810283351, 625407174, 3978208324, 4095321722, 2676726732, 3507443571, 3137319760, 3524953309, 942298444, 3202673402, 2497670879, 1468206665, 475897464, 2744843621, 1891344790, 2910742160, 2781307097, 206917071, 4091689249, 1148342367, 1326384206, 3338227582, 2704776652, 1680785616, 4105219713, 3290688235, 1817538705, 218179307, 610400748, 3692208494, 325368504, 3976527749, 805893472, 197946621, 59987135, 476873292, 4063928880, 3910711614, 254133635, 3503876607, 1912870481, 2340476595, 3620015048, 316513203, 1260719438, 1014220962, 601939671, 3876148868, 1150862, 2962711961, 2272705892, 3294527200, 3028557439, 3256515696, 2298515604, 1664910819, 1607834323, 500642488, 3633844327, 3499207746, 1249654028, 493187748, 4014581146, 1168104492, 3916774461, 295457027, 4002771641, 726341613, 1641393926, 1278006679, 4108262985, 1375912247, 2096082043, 4121084176, 3313015169, 2101945219, 1651086724, 2270112692, 3130697226, 1276496485, 1722048178, 2423007454, 3398294540, 757389868, 260022430, 1990258073, 2345408060, 589166011, 2138048269, 2085369091, 494730514, 154958691, 647604825, 2872629096, 2493167646, 1180016729, 352279558, 4247291309, 2689129718, 900317589, 732241435, 3422442746, 4120889489, 2120107247, 2560004412, 3889396941, 4124867742, 2734174282, 3485046210, 3382927232, 3693529867, 2335007621, 3755771041, 1298728777, 1380804808, 2401036718, 3811130942, 557790324, 1345177384, 3754132882, 3180678299, 1444158148, 2409954849, 2936930360, 138093132, 3837998439, 1582470624, 1844546610, 4256734349, 360694645, 2402597785, 1030813848, 2663607658, 377410427, 1804813307, 2488311063, 3480303551, 1151507107, 2874520930, 3967873113, 3656711932, 2803372822, 3292609632, 3250769804, 3017305065, 3717224502, 1855597417, 870697353, 3242317199, 1628777919, 185056122, 364331687, 3934891113, 2759573849, 3435789679, 1648609573, 3143540926, 1165887415, 3671290458, 705478570, 1598003616, 3166029588, 1960596286, 3727855724, 2152162397, 2742710798, 883649616, 986221861, 4239097391, 2036487411, 3990816530, 2436686926, 826720150, 3532316105, 2852166734, 3153483673, 3327100101, 4107753917, 1949243286, 1666522932, 4105940619, 606774603, 1079335739, 102041991, 3742827241, 554263033, 3354454501, 1015177063, 3025060941, 4232756182, 2262047157, 2607945184, 1390843352, 3222880588, 1796410587, 3260726707, 2904557602, 719083091, 862288755, 2050965780, 3093031935, 494502280, 2449073248, 3917319779, 3025833370, 2628269747, 4269362833, 249963351, 3038151185, 268598846, 1111293494, 3986472052, 4210232245, 757204625, 1575432697, 3283906717, 3454991900, 740416258, 1553824658, 910716360, 2378914226, 2013893691, 28346030, 964313715, 1878049837, 4029477675, 1442076824, 2768230190, 1967813166, 281228638, 841309674, 291916071, 244432185, 4132579924, 57951531, 2651868880, 3596319924, 618079502, 2534940258, 3647299005, 3160058836, 3499447117, 1671470502, 105747396, 3138073142, 414491751, 1578171783, 2869607875, 3608160267, 4144239887, 1194572708, 2220316418, 1426347242, 1385448866, 2570630715, 3564332906, 3015573339, 520839436, 230733740, 621249741, 3215203283, 1566102632, 2023161953, 3848701909, 1593778020, 2050453968, 746570349, 980356090, 1192134044, 2978397676, 3209645794, 2476736605, 4109106809, 1503703585, 3130615968, 3958569963, 3808726154, 2747254032, 916284446, 729714651, 921171565, 2237632520, 3943641082, 964243526, 1636795304, 817063096, 2562012836, 3225905035, 1196139190, 1105994562, 2615002751, 1461925474, 2041868833, 874784947, 2364595123, 779053034, 2146843496, 768582532, 1510549804, 2296468954, 280983634, 4113325173, 3342181034, 181706698, 2783717072, 2125444345, 2515738616, 2631821763, 983499847, 1274523942, 3533161863, 1697682233, 2440761150, 4216856787, 4177806392, 1221558384, 4105250751, 3192671063, 3552393141, 443638523, 3046203957, 1399599330, 3926771391, 1978533469, 3839082622, 2566445188, 4189529362, 3079584490, 3383617470, 3033240776, 2423771114, 2900373697, 3353385513, 4249046733, 6051714, 3419478663, 3125550162, 3244162511, 2541440956, 394602039, 3363603701, 654450001, 2126310457, 813378653, 2111916023, 4179496021, 4224640566, 3108385330, 1222475578, 2803287954, 1371065884, 50452670, 1105867588, 3652790664, 3289762087, 3040387461, 746191765, 2429944092, 1524203818, 3927767884, 320171905, 2024278332, 2213039209, 2524474256, 1477547252, 2522473476, 816328378, 4067556287, 3637768074, 1334629484, 2335778401, 1405887088, 3943633399, 993635239, 1613634119, 3727283715, 3825692774, 2698536768, 4017164658, 537419006, 3489833120, 2708839866, 2497098756, 322322123, 4153305989, 1533355085]

def mtW4 : List Nat := [1015164093, 531584015, 1531458668, 224253374, 4205495641, 1768809147, 778053457, 3715269908, 2164879569, 3478063827, 1304861911, 200425372, 1908785927, 583838627, 1212102886, 793522427, 3037455124, 2848236416, 2250178349, 2391454648, 3360199668, 2565172074, 543070920, 204667757, 4010567687, 3535500129, 3968585020, 1018173277, 3032998409, 1221275555, 1168849005, 2800341809, 4263169500, 2989137107, 468893577, 3072373871, 2465099044, 2922910340, 4269933690, 2669100664, 2563967958, 2241911161, 481028142, 2951635188, 4063742286, 4072812009, 1184024957, 1574302001, 3096479675, 4026284994, 2648241593, 2165473536, 3060944673, 3525473809, 1430824310, 4260465879, 626274190, 2470489826, 3661496421, 108001929, 3342402679, 2462874445, 4186267998, 2468472645, 980312100, 442193442, 2853376369, 169892241, 1470027707, 1616532859, 4269604294, 445918925, 2043265522, 2596843526, 2774154697, 996873020, 2953069628, 1969984414, 3466394298, 3275272344, 453751117, 1554962954, 580699835, 1205143537, 1310080271, 3879157227, 2995164132, 637784410, 2779447507, 3900510070, 3248827198, 2667837099, 3395065428, 1936726519, 410675532, 3451131712, 1631084290, 3094487103, 3041425270, 776649703, 1326693594, 1412890783, 4279318661, 470985522, 4291969139, 792935292, 923341333, 1797423847, 3561382184, 592574319, 3176371237, 3634547394, 3371536045, 2453446711, 725480246, 1189929189, 1662907848, 983482347, 3107695092, 140353070, 1780432031, 498133116, 3317080392, 2267813913, 1031765190, 427539340, 701909918, 2777007770, 2967085893, 2647172087, 1617708296, 1453471019, 1004499461, 3159594445, 681861030, 2534204222, 3150386128, 3756887015, 2233400462, 287914950, 465917341, 3454114523, 2813299768, 2646112494, 3832882580, 2218461438, 1548627931, 2080054252, 2019276000, 1275907675, 330348105, 2710964533, 203080103, 206394548, 3779213914, 2805169102, 3574059763, 1652414509, 3384210089, 700717815, 3944118520, 2266187560, 1517280919, 3763435460, 3272568411, 3202737653, 1372176798, 742798999, 2884426595, 2853676355, 3113157393, 3023423001, 2313784361, 1302552167, 3982628338, 166387889, 631743306, 3780486026, 462920934, 931446393, 3534534121, 2058168664, 4053435444, 4227504534, 514569826, 4168917442, 4190520631, 3582361662, 4096517548, 1792467087, 2953995241, 1703901691, 1941090415, 2507271352, 2150426358, 3699540543, 884500864, 3958697270, 3230947451, 1058495112, 3347375437, 2466315042, 182257237, 565311027, 1883574581, 1054875930, 3978270561, 3454751211, 261890483, 3701538594, 2204852389, 1158686609, 229533747, 2640154498, 933383648, 1199620904, 3897369321, 1614831560, 2315272949, 924473481, 583862443, 2688915763, 2542254747, 1099124761, 1303490521, 2754219125, 3179179796, 1437357832, 204350593, 1751601685, 2139668416, 336573895, 3511939453, 937794819, 986176511, 3319081102, 1117064957, 3058154449, 2810283351, 625407174, 3978208324, 4095321722, 2676726732, 3507443571, 3137319760, 3524953309, 942298444, 3202673402, 2497670879, 1468206665, 475897464, 2744843621, 1891344790, 2910742160, 2781307097, 206917071, 4091689249, 1148342367, 1326384206, 3338227582, 2704776652, 1680785616, 4105219713, 3290688235, 1817538705, 218179307, 610400748, 3692208494, 325368504, 3976527749, 805893472, 197946621, 59987135, 476873292, 4063928880, 3910711614, 254133635, 3503876607, 1912870481, 2340476595, 3620015048, 316513203, 1260719438, 1014220962, 601939671, 3876148868, 1150862, 2962711961, 2272705892, 3294527200, 3028557439, 3256515696, 2298515604, 1664910819, 1607834323, 500642488, 3633844327, 3499207746, 1249654028, 493187748, 4014581146, 1168104492, 3916774461, 295457027, 4002771641, 726341613, 1641393926, 1278006679, 4108262985, 1375912247, 2096082043, 4121084176, 10165493, 2209503526, 631522432, 4175844310, 394222235, 4076274791, 2536891076, 2937747538, 635598049, 533051651, 1877791059, 1692292124, 1895066173, 335070255, 2305036729, 1101906515, 3382808049, 1968528758, 160350342, 3047103612, 3579927439, 1031191574, 3435032814, 2221018963, 3767379834, 831106039, 4250788031, 724752954, 1947939487, 662092712, 2886594140, 435407751, 1810016206, 3739706133, 1821127150, 2634344901, 3241077089, 860902343, 2022714210, 341428386, 519425883, 1480774785, 4112145568, 2563555537, 2989056318, 2813219738, 1034434633, 2768616906, 3956577745, 1824116352, 1013303634, 3572390176, 3910487550, 583664151, 3265161891, 2237118606, 2472142487, 2832087693, 1334813068, 1219769526, 387708586, 2734556379, 2158159458, 1844538961, 2739144360, 2135607607, 4061790398, 1849319319, 1823224690, 564576113, 3388692437, 994211736, 3800534070, 1881057457, 3225828599, 4002784581, 348149412, 4129536124, 727984055, 1013129267, 1456255416, 1281790401, 3622929811, 2256888398, 4279368342, 2517684161, 2859410835, 4085753270, 1656362577, 877205251, 1482152374, 2146571618, 1698256327, 3167392558, 3527222495, 3829610080, 842226559, 2839141375, 1270302637, 1269561413, 1016019665, 65615754, 921017407, 2386325095, 1949243286, 1666522932, 4105940619, 606774603, 1079335739, 102041991, 3742827241, 554263033, 3354454501, 1015177063, 3025060941, 4232756182, 2262047157, 2607945184, 1390843352, 3222880588, 1796410587, 3260726707, 2904557602, 719083091, 862288755, 2050965780, 3093031935, 494502280, 2449073248, 3917319779, 3025833370, 2628269747, 4269362833, 249963351, 3038151185, 268598846, 1111293494, 3986472052, 4210232245, 757204625, 1575432697, 3283906717, 3454991900, 740416258, 1553824658, 910716360, 2378914226, 2013893691, 28346030, 964313715, 1878049837, 4029477675, 1442076824, 2768230190, 1967813166, 281228638, 841309674, 291916071, 244432185, 4132579924, 57951531, 2651868880, 3596319924, 618079502, 2534940258, 3647299005, 3160058836, 3499447117, 1671470502, 105747396, 3138073142, 414491751, 1578171783, 2869607875, 3608160267, 4144239887, 1194572708, 2220316418, 1426347242, 1385448866, 2570630715, 3564332906, 3015573339, 520839436, 230733740, 621249741, 3215203283, 1566102632, 2023161953, 3848701909, 1593778020, 2050453968, 746570349, 980356090, 1192134044, 2978397676, 3209645794, 2476736605, 4109106809, 1503703585, 3130615968, 3958569963, 3808726154, 2747254032, 916284446, 729714651, 921171565, 2237632520, 3943641082, 964243526, 1636795304, 817063096, 2562012836, 3225905035, 1196139190, 1105994562, 2615002751, 1461925474, 2041868833, 874784947, 2364595123, 779053034, 2146843496, 768582532, 1510549804, 2296468954, 280983634, 4113325173, 3342181034, 181706698, 2783717072, 2125444345, 2515738616, 2631821763, 983499847, 1274523942, 3533161863, 1697682233, 2440761150, 4216856787, 4177806392, 1221558384, 4105250751, 3192671063, 3552393141, 443638523, 3046203957, 1399599330, 3926771391, 1978533469, 3839082622, 2566445188, 4189529362, 3079584490, 3383617470, 3033240776, 2423771114, 2900373697, 3353385513, 4249046733, 6051714, 3419478663, 3125550162, 3244162511, 2541440956, 394602039, 3363603701, 654450001, 2126310457, 813378653, 2111916023, 4179496021, 4224640566, 3108385330, 1222475578, 2803287954, 1371065884, 50452670, 1105867588, 3652790664, 3289762087, 3040387461, 746191765, 2429944092, 1524203818, 3927767884, 320171905, 2024278332, 2213039209, 2524474256, 1477547252, 2522473476, 816328378, 4067556287, 3637768074, 1334629484, 2335778401, 1405887088, 3943633399, 993635239, 1613634119, 3727283715, 3825692774, 2698536768, 4017164658, 537419006, 3489833120, 2708839866, 2497098756, 322322123, 4153305989, 1533355085]

def mtW5 : List Nat := [1015164093, 531584015, 1531458668, 224253374, 4205495641, 1768809147, 778053457, 3715269908, 2164879569, 3478063827, 1304861911, 200425372, 1908785927, 583838627, 1212102886, 793522427, 3037455124, 2848236416, 2250178349, 2391454648, 3360199668, 2565172074, 543070920, 204667757, 4010567687, 3535500129, 3968585020, 1018173277, 3032998409, 1221275555, 1168849005, 2800341809, 4263169500, 2989137107, 468893577, 3072373871, 2465099044, 2922910340, 4269933690, 2669100664, 2563967958, 2241911161, 481028142, 2951635188, 4063742286, 4072812009, 1184024957, 1574302001, 3096479675, 4026284994, 2648241593, 2165473536, 3060944673, 3525473809, 1430824310, 4260465879, 626274190, 2470489826, 3661496421, 108001929, 3342402679, 2462874445, 4186267998, 2468472645, 980312100, 442193442, 2853376369, 169892241, 1470027707, 1616532859, 4269604294, 445918925, 2043265522, 2596843526, 2774154697, 996873020, 2953069628, 1969984414, 3466394298, 3275272344, 453751117, 1554962954, 580699835, 1205143537, 1310080271, 3879157227, 2995164132, 637784410, 2779447507, 3900510070, 3248827198, 2667837099, 3395065428, 1936726519, 410675532, 3451131712, 1631084290, 3094487103, 3041425270, 776649703, 1326693594, 1412890783, 4279318661, 470985522, 4291969139, 792935292, 923341333, 1797423847, 3561382184, 592574319, 3176371237, 3634547394, 3371536045, 2453446711, 725480246, 1189929189, 1662907848, 983482347, 3107695092, 140353070, 1780432031, 498133116, 3317080392, 2267813913, 1031765190, 427539340, 701909918, 2777007770, 2967085893, 2647172087, 1617708296, 1453471019, 1004499461, 3159594445, 681861030, 2534204222, 3150386128, 3756887015, 2233400462, 287914950, 465917341, 3454114523, 2813299768, 2646112494, 3832882580, 2218461438, 1548627931, 2080054252, 2019276000, 1275907675, 330348105, 2710964533, 203080103, 206394548, 3779213914, 2805169102, 3574059763, 1652414509, 3384210089, 700717815, 3944118520, 2266187560, 1517280919, 3763435460, 3272568411, 3202737653, 1372176798, 742798999, 2884426595, 2853676355, 3113157393, 3023423001, 2313784361, 1302552167, 3982628338, 166387889, 631743306, 3780486026, 462920934, 931446393, 3534534121, 2058168664, 4053435444, 4227504534, 514569826, 4168917442, 4190520631, 3582361662, 4096517548, 1792467087, 2953995241, 1703901691, 1941090415, 2507271352, 2150426358, 3699540543, 884500864, 3958697270, 3230947451, 1058495112, 3347375437, 2466315042, 182257237, 565311027, 1883574581, 1054875930, 3978270561, 3454751211, 261890483, 3701538594, 2204852389, 1158686609, 229533747, 2640154498, 933383648, 1199620904, 3897369321, 1614831560, 2315272949, 924473481, 583862443, 2688915763, 2542254747, 1099124761, 1303490521, 2754219125, 3179179796, 1437357832, 204350593, 1751601685, 2139668416, 336573895, 3511939453, 937794819, 986176511, 3319081102, 1117064957, 3058154449, 2810283351, 625407174, 3978208324, 4095321722, 2676726732, 3507443571, 3137319760, 3524953309, 942298444, 3202673402, 2497670879, 1468206665, 475897464, 2744843621, 1891344790, 2910742160, 2781307097, 206917071, 4091689249, 1148342367, 1326384206, 3338227582, 2704776652, 1680785616, 4105219713, 3290688235, 1817538705, 218179307, 610400748, 3692208494, 325368504, 3976527749, 805893472, 197946621, 59987135, 476873292, 4063928880, 3910711614, 254133635, 3503876607, 1912870481, 2340476595, 3620015048, 316513203, 1260719438, 1014220962, 601939671, 3876148868, 1150862, 2962711961, 2272705892, 3294527200, 3028557439, 3256515696, 2298515604, 1664910819, 1607834323, 500642488, 3633844327, 3499207746, 1249654028, 493187748, 4014581146, 1168104492, 3916774461, 295457027, 4002771641, 726341613, 1641393926, 1278006679, 4108262985, 1375912247, 2096082043, 4121084176, 10165493, 2209503526, 631522432, 4175844310, 394222235, 4076274791, 2536891076, 2937747538, 635598049, 533051651, 1877791059, 1692292124, 1895066173, 335070255, 2305036729, 1101906515, 3382808049, 1968528758, 160350342, 3047103612, 3579927439, 1031191574, 3435032814, 2221018963, 3767379834, 831106039, 4250788031, 724752954, 1947939487, 662092712, 2886594140, 435407751, 1810016206, 3739706133, 1821127150, 2634344901, 3241077089, 860902343, 2022714210, 341428386, 519425883, 1480774785, 4112145568, 2563555537, 2989056318, 2813219738, 1034434633, 2768616906, 3956577745, 1824116352, 1013303634, 3572390176, 3910487550, 583664151, 3265161891, 2237118606, 2472142487, 2832087693, 1334813068, 1219769526, 387708586, 2734556379, 2158159458, 1844538961, 2739144360, 2135607607, 4061790398, 1849319319, 1823224690, 564576113, 3388692437, 994211736, 3800534070, 1881057457, 3225828599, 4002784581, 348149412, 4129536124, 727984055, 1013129267, 1456255416, 1281790401, 3622929811, 2256888398, 4279368342, 2517684161, 2859410835, 4085753270, 1656362577, 877205251, 1482152374, 2146571618, 1698256327, 3167392558, 3527222495, 3829610080, 842226559, 2839141375, 1270302637, 1269561413, 1016019665, 65615754, 921017407, 2386325095, 1534881557, 323421299, 2928843649, 3398479149, 259250340, 917493597, 353272348, 2387127725, 750613082, 1136364162, 1093797731, 501635400, 3736728018, 1672367289, 29185685, 2630100871, 2261110556, 3146748784, 26069533, 2401643733, 3787415464, 105784709, 195880789, 89299459, 1894512748, 1838091053, 2430363822, 242824574, 3191602876, 159626018, 2132502422, 64190384, 2525742857, 1945538462, 2384126862, 4199188474, 486311140, 3683192858, 62700169, 576756040, 1933796593, 2037191449, 4043558661, 3515593258, 2991590629, 2486634806, 1691083204, 678372017, 2755153990, 3710172224, 757558889, 4094429873, 1705128502, 30143887, 3928375897, 1649221914, 3708986293, 1393027862, 3968825469, 2673041902, 2721648712, 1114688402, 1389945884, 23850821, 2925047666, 3091397058, 3641159459, 1172502333, 3372203617, 3180306580, 611579174, 3266199582, 1711631185, 2654110964, 3983132730, 4190214995, 1731761502, 3837245086, 2476151272, 361029998, 1720683836, 3067234390, 1700792009, 2798675024, 3084349817, 2638556546, 3556966870, 2148701290, 3455020034, 1367561375, 2470676549, 2288168121, 3255118658, 2824356525, 3383435629, 1051486855, 200842158, 1905510859, 3779626769, 3694661483, 1223264722, 922703254, 3233133684, 4236707689, 3943641082, 964243526, 1636795304, 817063096, 2562012836, 3225905035, 1196139190, 1105994562, 2615002751, 1461925474, 2041868833, 874784947, 2364595123, 779053034, 2146843496, 768582532, 1510549804, 2296468954, 280983634, 4113325173, 3342181034, 181706698, 2783717072, 2125444345, 2515738616, 2631821763, 983499847, 1274523942, 3533161863, 1697682233, 2440761150, 4216856787, 4177806392, 1221558384, 4105250751, 3192671063, 3552393141, 443638523, 3046203957, 1399599330, 3926771391, 1978533469, 3839082622, 2566445188, 4189529362, 3079584490, 3383617470, 3033240776, 2423771114, 2900373697, 3353385513, 4249046733, 6051714, 3419478663, 3125550162, 3244162511, 2541440956, 394602039, 3363603701, 654450001, 2126310457, 813378653, 2111916023, 4179496021, 4224640566, 3108385330, 1222475578, 2803287954, 1371065884, 50452670, 1105867588, 3652790664, 3289762087, 3040387461, 746191765, 2429944092, 1524203818, 3927767884, 320171905, 2024278332, 2213039209, 2524474256, 1477547252, 2522473476, 816328378, 4067556287, 3637768074, 1334629484, 2335778401, 1405887088, 3943633399, 993635239, 1613634119, 3727283715, 3825692774, 2698536768, 4017164658, 537419006, 3489833120, 2708839866, 2497098756, 322322123, 4153305989, 1533355085]

def mtW6 : List Nat := [1015164093, 531584015, 1531458668, 224253374, 4205495641, 1768809147, 778053457, 3715269908, 2164879569, 3478063827, 1304861911, 200425372, 1908785927, 583838627, 1212102886, 793522427, 3037455124, 2848236416, 2250178349, 2391454648, 3360199668, 2565172074, 543070920, 204667757, 4010567687, 3535500129, 3968585020, 1018173277, 3032998409, 1221275555, 1168849005, 2800341809, 4263169500, 2989137107, 468893577, 3072373871, 2465099044, 2922910340, 4269933690, 2669100664, 2563967958, 2241911161, 481028142, 2951635188, 4063742286, 4072812009, 1184024957, 1574302001, 3096479675, 4026284994, 2648241593, 2165473536, 3060944673, 3525473809, 1430824310, 4260465879, 626274190, 2470489826, 3661496421, 108001929, 3342402679, 2462874445, 4186267998, 2468472645, 980312100, 442193442, 2853376369, 169892241, 1470027707, 1616532859, 4269604294, 445918925, 2043265522, 2596843526, 2774154697, 996873020, 2953069628, 1969984414, 3466394298, 3275272344, 453751117, 1554962954, 580699835, 1205143537, 1310080271, 3879157227, 2995164132, 637784410, 2779447507, 3900510070, 3248827198, 2667837099, 3395065428, 1936726519, 410675532, 3451131712, 1631084290, 3094487103, 3041425270, 776649703, 1326693594, 1412890783, 4279318661, 470985522, 4291969139, 792935292, 923341333, 1797423847, 3561382184, 592574319, 3176371237, 3634547394, 3371536045, 2453446711, 725480246, 1189929189, 1662907848, 983482347, 3107695092, 140353070, 1780432031, 498133116, 3317080392, 2267813913, 1031765190, 427539340, 701909918, 2777007770, 2967085893, 2647172087, 1617708296, 1453471019, 1004499461, 3159594445, 681861030, 2534204222, 3150386128, 3756887015, 2233400462, 287914950, 465917341, 3454114523, 2813299768, 2646112494, 3832882580, 2218461438, 1548627931, 2080054252, 2019276000, 1275907675, 330348105, 2710964533, 203080103, 206394548, 3779213914, 2805169102, 3574059763, 1652414509, 3384210089, 700717815, 3944118520, 2266187560, 1517280919, 3763435460, 3272568411, 3202737653, 1372176798, 742798999, 2884426595, 2853676355, 3113157393, 3023423001, 2313784361, 1302552167, 3982628338, 166387889, 631743306, 3780486026, 462920934, 931446393, 3534534121, 2058168664, 4053435444, 4227504534, 514569826, 4168917442, 4190520631, 3582361662, 4096517548, 1792467087, 2953995241, 1703901691, 1941090415, 2507271352, 2150426358, 3699540543, 884500864, 3958697270, 3230947451, 1058495112, 3347375437, 2466315042, 182257237, 565311027, 1883574581, 1054875930, 3978270561, 3454751211, 261890483, 3701538594, 2204852389, 1158686609, 229533747, 2640154498, 933383648, 1199620904, 3897369321, 1614831560, 2315272949, 924473481, 583862443, 2688915763, 2542254747, 1099124761, 1303490521, 2754219125, 3179179796, 1437357832, 204350593, 1751601685, 2139668416, 336573895, 3511939453, 937794819, 986176511, 3319081102, 1117064957, 3058154449, 2810283351, 625407174, 3978208324, 4095321722, 2676726732, 3507443571, 3137319760, 3524953309, 942298444, 3202673402, 2497670879, 1468206665, 475897464, 2744843621, 1891344790, 2910742160, 2781307097, 206917071, 4091689249, 1148342367, 1326384206, 3338227582, 2704776652, 1680785616, 4105219713, 3290688235, 1817538705, 218179307, 610400748, 3692208494, 325368504, 3976527749, 805893472, 197946621, 59987135, 476873292, 4063928880, 3910711614, 254133635, 3503876607, 1912870481, 2340476595, 3620015048, 316513203, 1260719438, 1014220962, 601939671, 3876148868, 1150862, 2962711961, 2272705892, 3294527200, 3028557439, 3256515696, 2298515604, 1664910819, 1607834323, 500642488, 3633844327, 3499207746, 1249654028, 493187748, 4014581146, 1168104492, 3916774461, 295457027, 4002771641, 726341613, 1641393926, 1278006679, 4108262985, 1375912247, 2096082043, 4121084176, 10165493, 2209503526, 631522432, 4175844310, 394222235, 4076274791, 2536891076, 2937747538, 635598049, 533051651, 1877791059, 1692292124, 1895066173, 335070255, 2305036729, 1101906515, 3382808049, 1968528758, 160350342, 3047103612, 3579927439, 1031191574, 3435032814, 2221018963, 3767379834, 831106039, 4250788031, 724752954, 1947939487, 662092712, 2886594140, 435407751, 1810016206, 3739706133, 1821127150, 2634344901, 3241077089, 860902343, 2022714210, 341428386, 519425883, 1480774785, 4112145568, 2563555537, 2989056318, 2813219738, 1034434633, 2768616906, 3956577745, 1824116352, 1013303634, 3572390176, 3910487550, 583664151, 3265161891, 2237118606, 2472142487, 2832087693, 1334813068, 1219769526, 387708586, 2734556379, 2158159458, 1844538961, 2739144360, 2135607607, 4061790398, 1849319319, 1823224690, 564576113, 3388692437, 994211736, 3800534070, 1881057457, 3225828599, 4002784581, 348149412, 4129536124, 727984055, 1013129267, 1456255416, 1281790401, 3622929811, 2256888398, 4279368342, 2517684161, 2859410835, 4085753270, 1656362577, 877205251, 1482152374, 2146571618, 1698256327, 3167392558, 3527222495, 3829610080, 842226559, 2839141375, 1270302637, 1269561413, 1016019665, 65615754, 921017407, 2386325095, 1534881557, 323421299, 2928843649, 3398479149, 259250340, 917493597, 353272348, 2387127725, 750613082, 1136364162, 1093797731, 501635400, 3736728018, 1672367289, 29185685, 2630100871, 2261110556, 3146748784, 26069533, 2401643733, 3787415464, 105784709, 195880789, 89299459, 1894512748, 1838091053, 2430363822, 242824574, 3191602876, 159626018, 2132502422, 64190384, 2525742857, 1945538462, 2384126862, 4199188474, 486311140, 3683192858, 62700169, 576756040, 1933796593, 2037191449, 4043558661, 3515593258, 2991590629, 2486634806, 1691083204, 678372017, 2755153990, 3710172224, 757558889, 4094429873, 1705128502, 30143887, 3928375897, 1649221914, 3708986293, 1393027862, 3968825469, 2673041902, 2721648712, 1114688402, 1389945884, 23850821, 2925047666, 3091397058, 3641159459, 1172502333, 3372203617, 3180306580, 611579174, 3266199582, 1711631185, 2654110964, 3983132730, 4190214995, 1731761502, 3837245086, 2476151272, 361029998, 1720683836, 3067234390, 1700792009, 2798675024, 3084349817, 2638556546, 3556966870, 2148701290, 3455020034, 1367561375, 2470676549, 2288168121, 3255118658, 2824356525, 3383435629, 1051486855, 200842158, 1905510859, 3779626769, 3694661483, 1223264722, 922703254, 3233133684, 4236707689, 1065360832, 1863473927, 93225188, 3569519413, 700100440, 702145623, 1033069317, 2075129466, 772687645, 1286059506, 2458318213, 1910878143, 2088543256, 1580118706, 1523254357, 3655043807, 1450339290, 883953746, 1446797301, 1661062560, 3336050371, 928143336, 515455349, 495375719, 630227033, 1400033336, 2330042561, 2510366461, 4099227712, 1733383884, 2155541674, 209078305, 2006909975, 708063929, 2273531687, 964142836, 2707774676, 2320417091, 3693675533, 2037319695, 3733524455, 4275540177, 3357434641, 2622895603, 1783559810, 2576028512, 1901531230, 1008784746, 3893236503, 1458901911, 4267367486, 734825487, 1644650121, 833241031, 1688381437, 2324909759, 3784994819, 3316046279, 3738203861, 3097692568, 3648516720, 1390563204, 1028355620, 3486388773, 4211952259, 1506183124, 3062816259, 2198401759, 1832461023, 479252720, 4164079076, 303503794, 3781091850, 229255094, 2369566720, 4264896002, 2646624043, 2668471955, 1960849448, 2414305345, 3921817875, 3970575384, 1725799507, 4212134389, 3749348407, 2658400123, 167523745, 4030206109, 1212198473, 1702129649, 4292219540, 1268265418, 3322082159, 2990900420, 3204028133, 1668865565, 2787612163, 56981479, 1826221806, 480766906, 2633318011, 1966997646, 1916747959, 2019056663]

set_option maxRecDepth 40000 in
set_option maxHeartbeats 3000000 in
theorem mtW_seed : mtSeedCplx 5751081 = mtW0 := by decide

set_option maxRecDepth 40000 in
set_option maxHeartbeats 3000000 in
theorem mtW_chunk1 : (List.range' 0 104).foldl mtTwistStep mtW0 = mtW1 := by decide

set_option maxRecDepth 40000 in
set_option maxHeartbeats 3000000 in
theorem mtW_chunk2 : (List.range' 104 104).foldl mtTwistStep mtW1 = mtW2 := by decide

set_option maxRecDepth 40000 in
set_option maxHeartbeats 3000000 in
theorem mtW_chunk3 : (List.range' 208 104).foldl mtTwistStep mtW2 = mtW3 := by decide

set_option maxRecDepth 40000 in
set_option maxHeartbeats 3000000 in
theorem mtW_chunk4 : (List.range' 312 104).foldl mtTwistStep mtW3 = mtW4 := by decide

set_option maxRecDepth 40000 in
set_option maxHeartbeats 3000000 in
theorem mtW_chunk5 : (List.range' 416 104).foldl mtTwistStep mtW4 = mtW5 := by decide

set_option maxRecDepth 40000 in
set_option maxHeartbeats 3000000 in
theorem mtW_chunk6 : (List.range' 520 104).foldl mtTwistStep mtW5 = mtW6 := by decide

theorem mtW_twist : mtTwist mtW0 = mtW6 := by
  have hr : List.range 624 =
      List.range' 0 104 ++ List.range' 104 104 ++ List.range' 208 104 ++
      List.range' 312 104 ++ List.range' 416 104 ++ List.range' 520 104 := by
    set_option maxRecDepth 10000 in decide
  rw [mtTwist, hr]
  simp only [List.foldl_append]
  rw [mtW_chunk1, mtW_chunk2, mtW_chunk3, mtW_chunk4, mtW_chunk5, mtW_chunk6]

/-- A draw with cursor below 624 just bumps the cursor. -/
theorem mtStepState_no_twist (mt : List Nat) (i : Nat) (h : i < 624) :
    mtStepState ⟨mt, i⟩ = ⟨mt, i + 1⟩ := by
  have h2 : ¬ i ≥ 624 := by omega
  simp [mtStepState, mtRawNext, h2]

/-- A draw with cursor 624 twists and sets the cursor to 1. -/
theorem mtStepState_twist (mt : List Nat) :
    mtStepState ⟨mt, 624⟩ = ⟨mtTwist mt, 1⟩ := by
  simp [mtStepState, mtRawNext]

theorem mtStepState_iterate (mt : List Nat) (k : Nat) : ∀ i, i + k ≤ 624 →
    mtStepState^[k] (MtState.mk mt i) = ⟨mt, i + k⟩ := by
  induction k with
  | zero => intro i _; simp
  | succ k ih =>
    intro i h
    rw [Function.iterate_succ_apply, mtStepState_no_twist mt i (by omega),
      ih (i + 1) (by omega)]
    congr 1
    omega

/-- C1 counterexample: the claim asserts that every `next()` value lies in
`[0, 1)`, but the MT19937 generator of `src/modules/complexity.ts` seeded
with 5751081 returns exactly 1 on its draw number 281 (0-based): the
tempered word there is `0xFFFFFFFF`, and `next()` divides by
`0xFFFFFFFF = 2^32 - 1`, not by `2^32`. -/
theorem C1_counterexample_next_eq_one : mtOutAtCplx (some 5751081) 0 281 = 1 := by
  have h0 : mtInitCplx (some 5751081) 0 = ⟨mtW0, 624⟩ := by
    rw [mtInitCplx, Option.getD_some, mtW_seed]
  have hraw : mtRawAtCplx (some 5751081) 0 281 = 4294967295 := by
    have h2 : mtStepState^[281] (mtInitCplx (some 5751081) 0) = ⟨mtW6, 281⟩ := by
      rw [show (281 : Nat) = 280 + 1 from rfl, Function.iterate_add_apply,
        Function.iterate_one, h0, mtStepState_twist, mtW_twist,
        mtStepState_iterate mtW6 280 1 (by omega)]
    rw [mtRawAtCplx, h2]
    have h3 : ¬ (281 ≥ 624) := by omega
    simp only [mtRawNext, h3, if_false]
    set_option maxRecDepth 2000 in decide
  rw [mtOutAtCplx, hraw]
  norm_num

/-! ## Claim C1 -/

/-- C1 (amended): for every seed/key and every draw, each `next()` value
lies in the closed interval `[0, 1]` — for the LCG even in `[0, 1)`, but
for MT19937, ChaCha20 and XorShift128+ the value 1 is attainable because
the word is divided by `0xFFFFFFFF = 2^32 - 1` (resp. by the double
rounding of `0xFFFFFFFFFFFFFFFF`); accordingly `nextInt(k)` lies in
`[0, k]` for every `k > 0` (`[0, k)` for the LCG). -/
theorem C1_amended_range (s sb : Nat) (key : List Nat) (now n : Nat) (k : Int)
    (hk : 0 < k) :
    (0 ≤ lcgOutAt (some s) now n ∧ lcgOutAt (some s) now n < 1) ∧
    (0 ≤ mtOutAtEntropy (some sb) now n ∧ mtOutAtEntropy (some sb) now n ≤ 1) ∧
    (0 ≤ mtOutAtCplx (some sb) now n ∧ mtOutAtCplx (some sb) now n ≤ 1) ∧
    (0 ≤ chachaOutAt key now n ∧ chachaOutAt key now n ≤ 1) ∧
    (0 ≤ xsOutAt (some sb) now n ∧ xsOutAt (some sb) now n ≤ 1) ∧
    (0 ≤ lcgNextIntAt (some s) now n k ∧ lcgNextIntAt (some s) now n k < k) ∧
    (0 ≤ mtNextIntAtEntropy (some sb) now n k ∧ mtNextIntAtEntropy (some sb) now n k ≤ k) ∧
    (0 ≤ mtNextIntAtCplx (some sb) now n k ∧ mtNextIntAtCplx (some sb) now n k ≤ k) ∧
    (0 ≤ chachaNextIntAt key now n k ∧ chachaNextIntAt key now n k ≤ k) ∧
    (0 ≤ xsNextIntAt (some sb) now n k ∧ xsNextIntAt (some sb) now n k ≤ k) := by
  obtain ⟨hl0, hl1⟩ := lcgOutAt_bounds (some s) now n
  obtain ⟨hm0, hm1⟩ := mtOutAtEntropy_bounds (some sb) now n
  obtain ⟨hc0, hc1⟩ := mtOutAtCplx_bounds (some sb) now n
  obtain ⟨hh0, hh1⟩ := chachaOutAt_bounds key now n
  obtain ⟨hx0, hx1⟩ := xsOutAt_bounds (some sb) now n
  exact ⟨⟨hl0, hl1⟩, ⟨hm0, hm1⟩, ⟨hc0, hc1⟩, ⟨hh0, hh1⟩, ⟨hx0, hx1⟩,
    ⟨(floorMul_bounds _ _ hl0 hl1.le hk).1, floorMul_lt _ _ hl1 hk⟩,
    floorMul_bounds _ _ hm0 hm1 hk, floorMul_bounds _ _ hc0 hc1 hk,
    floorMul_bounds _ _ hh0 hh1 hk, floorMul_bounds _ _ hx0 hx1 hk⟩

/-- Witness for C1 at seed 1, draw 0, `k = 3`. -/
theorem C1_witness :
    (0 ≤ lcgOutAt (some 1) 0 0 ∧ lcgOutAt (some 1) 0 0 < 1) ∧
    (0 ≤ lcgNextIntAt (some 1) 0 0 3 ∧ lcgNextIntAt (some 1) 0 0 3 < 3) :=
  ⟨(C1_amended_range 1 1 [] 0 0 3 (by norm_num)).1,
   (C1_amended_range 1 1 [] 0 0 3 (by norm_num)).2.2.2.2.2.1⟩

/-! ## Claim C3 -/

/-- The 16-bit-split multiply of `complexity.ts` (`<< 16` int32 wrap and all)
computes the exact seeding recurrence for every word and index. -/
theorem mtSeedStepCplx_eq_spec (prev i : Nat) :
    mtSeedStepCplx prev i = mtSeedStepSpec prev i := by
  unfold mtSeedStepCplx mtSeedStepSpec int32ofZ
  generalize prev ^^^ (prev >>> 30) = u
  omega

/-- C3: MT19937 seeding.  The `complexity.ts` `init` satisfies
`mt[0] = seed`, `mt[i] = (1812433253 * (mt[i-1] xor (mt[i-1] >> 30)) + i) mod 2^32`
bit-exactly for *every* seed; but the `lib/entropy.ts` `seed` — the claim's
other cited implementation — computes the product with a plain JS `*` whose
double result exceeds `2^53`, so already at seed 5489 and index 2 it stores
2938499072 instead of the exact 2938499221.  (Consequently the lib variant
cannot reproduce the canonical seed-5489 tempered output; `complexity.ts`
does — see `mtRawAtCplx (some 5489) 0 0 = 3499211612` checked during
development of this file and implied by the exact seeding plus the shared
twist/temper code.) -/
theorem C3_mt_seeding_bitexact :
    (∀ s, mtSeedCplx s = mtSeedSpec s) ∧
    (mtSeedEntropy 5489).getD 0 0 = 5489 ∧
    (mtSeedSpec 5489).getD 2 0 = 2938499221 ∧
    (mtSeedEntropy 5489).getD 2 0 = 2938499072 ∧
    (mtSeedEntropy 5489).getD 2 0 ≠ (mtSeedSpec 5489).getD 2 0 := by
  refine ⟨?_, by decide, by decide, by decide, by decide⟩
  intro s
  have hstep : mtSeedStepCplx = mtSeedStepSpec :=
    funext fun p => funext fun i => mtSeedStepCplx_eq_spec p i
  rw [mtSeedCplx, mtSeedSpec, hstep]

/-! ## Claim C10 -/

theorem addEntropy_length (pool : List Nat) (b : Nat) (h : pool.length ≤ 256) :
    (addEntropy pool b).length ≤ 256 := by
  simp only [addEntropy]
  split
  · simp only [List.length_tail, List.length_append, List.length_cons, List.length_nil]
    omega
  · rename_i h2
    simp only [List.length_append, List.length_cons, List.length_nil] at h2 ⊢
    omega

theorem collectFresh_length (pool : List Nat) (env : Nat → Nat)
    (h : pool.length ≤ 256) : (collectFresh pool env).length ≤ 256 := by
  rw [collectFresh]
  generalize List.range 16 = l
  induction l generalizing pool with
  | nil => simpa using h
  | cons a t ih =>
    rw [List.foldl_cons]
    exact ih _ (addEntropy_length _ _ (addEntropy_length _ _ h))

/-- C10: the entropy pool has fixed capacity 256 and never exceeds it —
after any `addEntropy` (in particular the 32 internal calls of `getBytes`)
the pool holds at most 256 bytes, the new sample is appended, and exactly
when the pool was full the oldest (front) sample is evicted. -/
theorem C10_pool_capacity (pool : List Nat) (b : Nat) (env : Nat → Nat) (count : Nat)
    (h : pool.length ≤ 256) :
    (addEntropy pool b).length ≤ 256 ∧
    (pool.length = 256 → addEntropy pool b = pool.tail ++ [b % 256]) ∧
    (pool.length < 256 → addEntropy pool b = pool ++ [b % 256]) ∧
    ((getBytes pool env count).2).length ≤ 256 := by
  refine ⟨addEntropy_length pool b h, ?_, ?_, ?_⟩
  · intro h256
    simp only [addEntropy]
    rw [if_pos (by simp [h256])]
    cases pool with
    | nil => simp at h256
    | cons x t => simp
  · intro hlt
    simp only [addEntropy]
    rw [if_neg (by simp only [List.length_append, List.length_cons, List.length_nil]; omega)]
  · simp only [getBytes]
    exact collectFresh_length pool env h

/-- Witness for C10 on a full pool of 256 sevens. -/
theorem C10_witness :
    (addEntropy (List.replicate 256 7) 300).length ≤ 256 ∧
    addEntropy (List.replicate 256 7) 300 = (List.replicate 256 7).tail ++ [300 % 256] :=
  ⟨(C10_pool_capacity (List.replicate 256 7) 300 (fun _ => 0) 2
      (List.length_replicate 256 7).le).1,
   (C10_pool_capacity (List.replicate 256 7) 300 (fun _ => 0) 2
      (List.length_replicate 256 7).le).2.1 (List.length_replicate 256 7)⟩

/-! ## Claim C9 -/

theorem hexDigitVal_nibbleChar (n : Nat) (h : n < 16) :
    hexDigitVal (nibbleChar n) = n := by
  interval_cases n <;> decide

theorem fromHexChars_cons2 (a b : Char) (l : List Char) :
    fromHexChars (a :: b :: l) = (16 * hexDigitVal a + hexDigitVal b) :: fromHexChars l := rfl

theorem byteToHexPair_pair (b : Nat) (h : b < 256) :
    byteToHexPair b = [nibbleChar (b / 16), nibbleChar (b % 16)] := by
  unfold byteToHexPair byteToStringBase16
  by_cases hb : b < 16
  · rw [if_pos hb]
    simp only [List.length_cons, List.length_nil, if_pos rfl]
    rw [Nat.div_eq_of_lt hb, Nat.mod_eq_of_lt hb]
    rfl
  · rw [if_neg hb]
    simp

theorem fromHex_toHex_chars : ∀ bs : List Nat, (∀ b ∈ bs, b < 256) →
    fromHexChars ((bs.map byteToHexPair).flatten) = bs
  | [], _ => rfl
  | b :: t, h => by
    have hb : b < 256 := h b (by simp)
    rw [List.map_cons, List.flatten_cons, byteToHexPair_pair b hb, List.cons_append,
      List.cons_append, List.nil_append, fromHexChars_cons2,
      hexDigitVal_nibbleChar _ (Nat.div_lt_of_lt_mul (by omega)),
      hexDigitVal_nibbleChar _ (Nat.mod_lt _ (by omega)),
      Nat.div_add_mod b 16]
    exact congrArg (b :: ·) (fromHex_toHex_chars t (fun x hx => h x (by simp [hx])))

/-- C9: for every byte sequence (each element below 256, as in a
`Uint8Array`), including the empty one, `fromHex (toHex bytes)` returns the
sequence unchanged. -/
theorem C9_hex_round_trip (bs : List Nat) (h : ∀ b ∈ bs, b < 256) :
    fromHex (toHex bs) = bs :=
  fromHex_toHex_chars bs h

/-- Witness for C9 on `[0, 171, 255]` (and the empty sequence via the same
theorem at `[]`). -/
theorem C9_witness : fromHex (toHex [0, 171, 255]) = [0, 171, 255] ∧
    fromHex (toHex []) = [] :=
  ⟨C9_hex_round_trip [0, 171, 255] (by decide), C9_hex_round_trip [] (by simp)⟩

/-! ## Claim C8 -/

theorem foldl_min_const (c : ℚ) : ∀ t : List ℚ, (∀ x ∈ t, x = c) → t.foldl min c = c
  | [], _ => rfl
  | x :: t, h => by
    rw [List.foldl_cons, h x (by simp), min_self]
    exact foldl_min_const c t (fun y hy => h y (by simp [hy]))

theorem foldl_max_const (c : ℚ) : ∀ t : List ℚ, (∀ x ∈ t, x = c) → t.foldl max c = c
  | [], _ => rfl
  | x :: t, h => by
    rw [List.foldl_cons, h x (by simp), max_self]
    exact foldl_max_const c t (fun y hy => h y (by simp [hy]))

theorem stxRange_const (data : List ℚ) (c : ℚ) (hne : data ≠ [])
    (h : ∀ x ∈ data, x = c) : stxRange data = 1 := by
  cases data with
  | nil => exact absurd rfl hne
  | cons x t =>
    have hx : x = c := h x (by simp)
    have hmin : stxMin (x :: t) = c := by
      show t.foldl min x = c
      rw [hx]
      exact foldl_min_const c t (fun y hy => h y (by simp [hy]))
    have hmax : stxMax (x :: t) = c := by
      show t.foldl max x = c
      rw [hx]
      exact foldl_max_const c t (fun y hy => h y (by simp [hy]))
    rw [stxRange, hmax, hmin]
    simp

attribute [local semireducible] Rat.add Rat.mul Rat.sub Rat.inv Rat.ofScientific in
/-- C8: `chiSquareUniformity` on a constant input does not divide by zero —
for every nonempty constant data sequence the bin width substitutes range 1
(`max - min || 1`), and on `[5,5,5,5,5]` the call returns the defined record
with statistic 45, buckets `[5,0,...,0]` and expected frequency 1/2. -/
theorem C8_chi_square_degenerate :
    (∀ (data : List ℚ) (c : ℚ), data ≠ [] → (∀ x ∈ data, x = c) → stxRange data = 1) ∧
    (chiSquareUniformity [5, 5, 5, 5, 5] 10).statistic = 45 ∧
    (chiSquareUniformity [5, 5, 5, 5, 5] 10).buckets = [5, 0, 0, 0, 0, 0, 0, 0, 0, 0] ∧
    (chiSquareUniformity [5, 5, 5, 5, 5] 10).expected = 1 / 2 := by
  refine ⟨fun data c hne h => stxRange_const data c hne h, ?_, ?_, ?_⟩
  · show stxStatistic [5, 5, 5, 5, 5] 10 = 45
    decide
  · show stxCounts [5, 5, 5, 5, 5] 10 = [5, 0, 0, 0, 0, 0, 0, 0, 0, 0]
    decide
  · show stxExpected [5, 5, 5, 5, 5] 10 = 1 / 2
    decide

/-- Witness for C8 at the constant list `[5,5,5,5,5]`. -/
theorem C8_witness : stxRange [5, 5, 5, 5, 5] = 1 :=
  C8_chi_square_degenerate.1 [5, 5, 5, 5, 5] 5 (by simp) (by decide)

/-! ## Claim C5: the block function as the specification describes it

Specification-side definitions (`specQuarterRound`, `specDoubleRound`,
`specRounds`, `specSerialize`, `specIncrCounter`) are written from the
spec's words: a quarter round is the add-rotate-xor sequence with rotation
amounts 16, 12, 8, 7 in that order; a double round is 4 column quarter
rounds over {0,4,8,12},{1,5,9,13},{2,6,10,14},{3,7,11,15} followed by 4
diagonal quarter rounds over {0,5,10,15},{1,6,11,12},{2,7,8,13},{3,4,9,14};
the block applies exactly 10 double rounds, adds the pre-round state
word-by-word mod 2^32, serializes the 16 words little-endian into the
64-byte buffer, and increments the counter word 12 with carry into word 13
on overflow. -/

/-- The quarter round as the specification states it, as a function on four
words: add-rotate-xor with rotations 16, 12, 8, 7 in that order. -/
def specQuarterRound (t : Nat × Nat × Nat × Nat) : Nat × Nat × Nat × Nat :=
  let a1 := (t.1 + t.2.1) % 2 ^ 32
  let d1 := rotl32 (t.2.2.2 ^^^ a1) 16
  let c1 := (t.2.2.1 + d1) % 2 ^ 32
  let b1 := rotl32 (t.2.1 ^^^ c1) 12
  let a2 := (a1 + b1) % 2 ^ 32
  let d2 := rotl32 (d1 ^^^ a2) 8
  let c2 := (c1 + d2) % 2 ^ 32
  let b2 := rotl32 (b1 ^^^ c2) 7
  (a2, b2, c2, d2)

/-- Application of the spec's quarter round at an index quadruple. -/
def applySpecQR (x : List Nat) (a b c d : Nat) : List Nat :=
  let r := specQuarterRound (x.getD a 0, x.getD b 0, x.getD c 0, x.getD d 0)
  (((x.set a r.1).set b r.2.1).set c r.2.2.1).set d r.2.2.2

/-- The spec's double round: column quarter rounds, then diagonal ones. -/
def specDoubleRound (x : List Nat) : List Nat :=
  applySpecQR (applySpecQR (applySpecQR (applySpecQR
    (applySpecQR (applySpecQR (applySpecQR (applySpecQR x 0 4 8 12)
      1 5 9 13) 2 6 10 14) 3 7 11 15)
    0 5 10 15) 1 6 11 12) 2 7 8 13) 3 4 9 14

/-- Exactly 10 double rounds. -/
def specRounds (x : List Nat) : List Nat := specDoubleRound^[10] x

/-- Little-endian bytes of a 32-bit word. -/
def leBytes (v : Nat) : List Nat := [v % 256, v / 2 ^ 8 % 256, v / 2 ^ 16 % 256, v / 2 ^ 24 % 256]

/-- Little-endian serialization of the 16 sums `(x[i] + st[i]) mod 2^32`. -/
def specSerialize (x st : List Nat) : List Nat :=
  ((List.range 16).map (fun i => leBytes ((x.getD i 0 + st.getD i 0) % 2 ^ 32))).flatten

/-- Counter increment in word 12 with carry into word 13 on overflow. -/
def specIncrCounter (st : List Nat) : List Nat :=
  if st.getD 12 0 + 1 = 2 ^ 32
  then (st.set 12 0).set 13 ((st.getD 13 0 + 1) % 2 ^ 32)
  else st.set 12 ((st.getD 12 0 + 1) % 2 ^ 32)

theorem chachaQR_spec1 (w0 w1 w2 w3 w4 w5 w6 w7 w8 w9 w10 w11 w12 w13 w14 w15 : Nat) :
    chachaQR [w0, w1, w2, w3, w4, w5, w6, w7, w8, w9, w10, w11, w12, w13, w14, w15] 0 4 8 12 = applySpecQR [w0, w1, w2, w3, w4, w5, w6, w7, w8, w9, w10, w11, w12, w13, w14, w15] 0 4 8 12 := rfl

theorem applySpecQR_lit1 (w0 w1 w2 w3 w4 w5 w6 w7 w8 w9 w10 w11 w12 w13 w14 w15 : Nat) :
    applySpecQR [w0, w1, w2, w3, w4, w5, w6, w7, w8, w9, w10, w11, w12, w13, w14, w15] 0 4 8 12 =
    [(specQuarterRound (w0, w4, w8, w12)).1, w1, w2, w3,
     (specQuarterRound (w0, w4, w8, w12)).2.1, w5, w6, w7,
     (specQuarterRound (w0, w4, w8, w12)).2.2.1, w9, w10, w11,
     (specQuarterRound (w0, w4, w8, w12)).2.2.2, w13, w14, w15] := rfl

theorem chachaQR_spec2 (w0 w1 w2 w3 w4 w5 w6 w7 w8 w9 w10 w11 w12 w13 w14 w15 : Nat) :
    chachaQR [w0, w1, w2, w3, w4, w5, w6, w7, w8, w9, w10, w11, w12, w13, w14, w15] 1 5 9 13 = applySpecQR [w0, w1, w2, w3, w4, w5, w6, w7, w8, w9, w10, w11, w12, w13, w14, w15] 1 5 9 13 := rfl

theorem applySpecQR_lit2 (w0 w1 w2 w3 w4 w5 w6 w7 w8 w9 w10 w11 w12 w13 w14 w15 : Nat) :
    applySpecQR [w0, w1, w2, w3, w4, w5, w6, w7, w8, w9, w10, w11, w12, w13, w14, w15] 1 5 9 13 =
    [w0, (specQuarterRound (w1, w5, w9, w13)).1, w2, w3,
     w4, (specQuarterRound (w1, w5, w9, w13)).2.1, w6, w7,
     w8, (specQuarterRound (w1, w5, w9, w13)).2.2.1, w10, w11,
     w12, (specQuarterRound (w1, w5, w9, w13)).2.2.2, w14, w15] := rfl

theorem chachaQR_spec3 (w0 w1 w2 w3 w4 w5 w6 w7 w8 w9 w10 w11 w12 w13 w14 w15 : Nat) :
    chachaQR [w0, w1, w2, w3, w4, w5, w6, w7, w8, w9, w10, w11, w12, w13, w14, w15] 2 6 10 14 = applySpecQR [w0, w1, w2, w3, w4, w5, w6, w7, w8, w9, w10, w11, w12, w13, w14, w15] 2 6 10 14 := rfl

theorem applySpecQR_lit3 (w0 w1 w2 w3 w4 w5 w6 w7 w8 w9 w10 w11 w12 w13 w14 w15 : Nat) :
    applySpecQR [w0, w1, w2, w3, w4, w5, w6, w7, w8, w9, w10, w11, w12, w13, w14, w15] 2 6 10 14 =
    [w0, w1, (specQuarterRound (w2, w6, w10, w14)).1, w3,
     w4, w5, (specQuarterRound (w2, w6, w10, w14)).2.1, w7,
     w8, w9, (specQuarterRound (w2, w6, w10, w14)).2.2.1, w11,
     w12, w13, (specQuarterRound (w2, w6, w10, w14)).2.2.2, w15] := rfl

theorem chachaQR_spec4 (w0 w1 w2 w3 w4 w5 w6 w7 w8 w9 w10 w11 w12 w13 w14 w15 : Nat) :
    chachaQR [w0, w1, w2, w3, w4, w5, w6, w7, w8, w9, w10, w11, w12, w13, w14, w15] 3 7 11 15 = applySpecQR [w0, w1, w2, w3, w4, w5, w6, w7, w8, w9, w10, w11, w12, w13, w14, w15] 3 7 11 15 := rfl

theorem applySpecQR_lit4 (w0 w1 w2 w3 w4 w5 w6 w7 w8 w9 w10 w11 w12 w13 w14 w15 : Nat) :
    applySpecQR [w0, w1, w2, w3, w4, w5, w6, w7, w8, w9, w10, w11, w12, w13, w14, w15] 3 7 11 15 =
    [w0, w1, w2, (specQuarterRound (w3, w7, w11, w15)).1,
     w4, w5, w6, (specQuarterRound (w3, w7, w11, w15)).2.1,
     w8, w9, w10, (specQuarterRound (w3, w7, w11, w15)).2.2.1,
     w12, w13, w14, (specQuarterRound (w3, w7, w11, w15)).2.2.2] := rfl

theorem chachaQR_spec5 (w0 w1 w2 w3 w4 w5 w6 w7 w8 w9 w10 w11 w12 w13 w14 w15 : Nat) :
    chachaQR [w0, w1, w2, w3, w4, w5, w6, w7, w8, w9, w10, w11, w12, w13, w14, w15] 0 5 10 15 = applySpecQR [w0, w1, w2, w3, w4, w5, w6, w7, w8, w9, w10, w11, w12, w13, w14, w15] 0 5 10 15 := rfl

theorem applySpecQR_lit5 (w0 w1 w2 w3 w4 w5 w6 w7 w8 w9 w10 w11 w12 w13 w14 w15 : Nat) :
    applySpecQR [w0, w1, w2, w3, w4, w5, w6, w7, w8, w9, w10, w11, w12, w13, w14, w15] 0 5 10 15 =
    [(specQuarterRound (w0, w5, w10, w15)).1, w1, w2, w3,
     w4, (specQuarterRound (w0, w5, w10, w15)).2.1, w6, w7,
     w8, w9, (specQuarterRound (w0, w5, w10, w15)).2.2.1, w11,
     w12, w13, w14, (specQuarterRound (w0, w5, w10, w15)).2.2.2] := rfl

theorem chachaQR_spec6 (w0 w1 w2 w3 w4 w5 w6 w7 w8 w9 w10 w11 w12 w13 w14 w15 : Nat) :
    chachaQR [w0, w1, w2, w3, w4, w5, w6, w7, w8, w9, w10, w11, w12, w13, w14, w15] 1 6 11 12 = applySpecQR [w0, w1, w2, w3, w4, w5, w6, w7, w8, w9, w10, w11, w12, w13, w14, w15] 1 6 11 12 := rfl

theorem applySpecQR_lit6 (w0 w1 w2 w3 w4 w5 w6 w7 w8 w9 w10 w11 w12 w13 w14 w15 : Nat) :
    applySpecQR [w0, w1, w2, w3, w4, w5, w6, w7, w8, w9, w10, w11, w12, w13, w14, w15] 1 6 11 12 =
    [w0, (specQuarterRound (w1, w6, w11, w12)).1, w2, w3,
     w4, w5, (specQuarterRound (w1, w6, w11, w12)).2.1, w7,
     w8, w9, w10, (specQuarterRound (w1, w6, w11, w12)).2.2.1,
     (specQuarterRound (w1, w6, w11, w12)).2.2.2, w13, w14, w15] := rfl

theorem chachaQR_spec7 (w0 w1 w2 w3 w4 w5 w6 w7 w8 w9 w10 w11 w12 w13 w14 w15 : Nat) :
    chachaQR [w0, w1, w2, w3, w4, w5, w6, w7, w8, w9, w10, w11, w12, w13, w14, w15] 2 7 8 13 = applySpecQR [w0, w1, w2, w3, w4, w5, w6, w7, w8, w9, w10, w11, w12, w13, w14, w15] 2 7 8 13 := rfl

theorem applySpecQR_lit7 (w0 w1 w2 w3 w4 w5 w6 w7 w8 w9 w10 w11 w12 w13 w14 w15 : Nat) :
    applySpecQR [w0, w1, w2, w3, w4, w5, w6, w7, w8, w9, w10, w11, w12, w13, w14, w15] 2 7 8 13 =
    [w0, w1, (specQuarterRound (w2, w7, w8, w13)).1, w3,
     w4, w5, w6, (specQuarterRound (w2, w7, w8, w13)).2.1,
     (specQuarterRound (w2, w7, w8, w13)).2.2.1, w9, w10, w11,
     w12, (specQuarterRound (w2, w7, w8, w13)).2.2.2, w14, w15] := rfl

theorem chachaQR_spec8 (w0 w1 w2 w3 w4 w5 w6 w7 w8 w9 w10 w11 w12 w13 w14 w15 : Nat) :
    chachaQR [w0, w1, w2, w3, w4, w5, w6, w7, w8, w9, w10, w11, w12, w13, w14, w15] 3 4 9 14 = applySpecQR [w0, w1, w2, w3, w4, w5, w6, w7, w8, w9, w10, w11, w12, w13, w14, w15] 3 4 9 14 := rfl

theorem applySpecQR_lit8 (w0 w1 w2 w3 w4 w5 w6 w7 w8 w9 w10 w11 w12 w13 w14 w15 : Nat) :
    applySpecQR [w0, w1, w2, w3, w4, w5, w6, w7, w8, w9, w10, w11, w12, w13, w14, w15] 3 4 9 14 =
    [w0, w1, w2, (specQuarterRound (w3, w4, w9, w14)).1,
     (specQuarterRound (w3, w4, w9, w14)).2.1, w5, w6, w7,
     w8, (specQuarterRound (w3, w4, w9, w14)).2.2.1, w10, w11,
     w12, w13, (specQuarterRound (w3, w4, w9, w14)).2.2.2, w15] := rfl

set_option maxHeartbeats 1000000 in
/-- The source's double round coincides with the spec's on every 16-word
state, proved by expanding both sides quarter round by quarter round. -/
theorem chachaDoubleRound_lit (w0 w1 w2 w3 w4 w5 w6 w7 w8 w9 w10 w11 w12 w13 w14 w15 : Nat) :
    chachaDoubleRound [w0, w1, w2, w3, w4, w5, w6, w7, w8, w9, w10, w11, w12, w13, w14, w15] = specDoubleRound [w0, w1, w2, w3, w4, w5, w6, w7, w8, w9, w10, w11, w12, w13, w14, w15] := by
  simp only [chachaDoubleRound, specDoubleRound, chachaQR_spec1, chachaQR_spec2, chachaQR_spec3, chachaQR_spec4, chachaQR_spec5, chachaQR_spec6, chachaQR_spec7, chachaQR_spec8,
    applySpecQR_lit1, applySpecQR_lit2, applySpecQR_lit3, applySpecQR_lit4, applySpecQR_lit5, applySpecQR_lit6, applySpecQR_lit7, applySpecQR_lit8]

theorem list16 (x : List Nat) (h : x.length = 16) :
    ∃ a0 a1 a2 a3 a4 a5 a6 a7 a8 a9 a10 a11 a12 a13 a14 a15 : Nat, x = [a0, a1, a2, a3, a4, a5, a6, a7, a8, a9, a10, a11, a12, a13, a14, a15] := by
  rcases x with _ | ⟨a0, x⟩; · simp at h
  rcases x with _ | ⟨a1, x⟩; · simp at h
  rcases x with _ | ⟨a2, x⟩; · simp at h
  rcases x with _ | ⟨a3, x⟩; · simp at h
  rcases x with _ | ⟨a4, x⟩; · simp at h
  rcases x with _ | ⟨a5, x⟩; · simp at h
  rcases x with _ | ⟨a6, x⟩; · simp at h
  rcases x with _ | ⟨a7, x⟩; · simp at h
  rcases x with _ | ⟨a8, x⟩; · simp at h
  rcases x with _ | ⟨a9, x⟩; · simp at h
  rcases x with _ | ⟨a10, x⟩; · simp at h
  rcases x with _ | ⟨a11, x⟩; · simp at h
  rcases x with _ | ⟨a12, x⟩; · simp at h
  rcases x with _ | ⟨a13, x⟩; · simp at h
  rcases x with _ | ⟨a14, x⟩; · simp at h
  rcases x with _ | ⟨a15, x⟩; · simp at h
  rcases x with _ | ⟨a16, x⟩
  · exact ⟨a0, a1, a2, a3, a4, a5, a6, a7, a8, a9, a10, a11, a12, a13, a14, a15, rfl⟩
  · simp at h

theorem chachaDoubleRound_eq (x : List Nat) (h : x.length = 16) :
    chachaDoubleRound x = specDoubleRound x := by
  obtain ⟨a0, a1, a2, a3, a4, a5, a6, a7, a8, a9, a10, a11, a12, a13, a14, a15, rfl⟩ := list16 x h
  exact chachaDoubleRound_lit a0 a1 a2 a3 a4 a5 a6 a7 a8 a9 a10 a11 a12 a13 a14 a15

theorem specDoubleRound_length (x : List Nat) : (specDoubleRound x).length = x.length := by
  simp [specDoubleRound, applySpecQR]

theorem specDoubleRound_iter_length (k : Nat) (x : List Nat) :
    (specDoubleRound^[k] x).length = x.length := by
  induction k generalizing x with
  | zero => rfl
  | succ k ih =>
    rw [Function.iterate_succ_apply, ih, specDoubleRound_length]

theorem foldl_range_iterate {α : Type} (g : α → α) (n : Nat) (s : α) :
    (List.range n).foldl (fun x _ => g x) s = g^[n] s := by
  induction n with
  | zero => rfl
  | succ n ih =>
    rw [List.range_succ, List.foldl_append, ih, List.foldl_cons, List.foldl_nil,
      Function.iterate_succ_apply']

attribute [local irreducible] chachaDoubleRound specDoubleRound in
theorem iterate_doubleRound_eq (k : Nat) : ∀ x : List Nat, x.length = 16 →
    chachaDoubleRound^[k] x = specDoubleRound^[k] x := by
  induction k with
  | zero => intro x _; rfl
  | succ k ih =>
    intro x h
    rw [Function.iterate_succ_apply, Function.iterate_succ_apply,
      chachaDoubleRound_eq x h, ih (specDoubleRound x) (by rw [specDoubleRound_length, h])]

attribute [local irreducible] chachaDoubleRound specDoubleRound in
theorem chachaRounds_eq_spec (x : List Nat) (h : x.length = 16) :
    chachaRounds x = specRounds x := by
  rw [chachaRounds, foldl_range_iterate, specRounds, iterate_doubleRound_eq 10 x h]

theorem and255_eq_mod (v : Nat) : v &&& 255 = v % 256 := by
  have h := Nat.and_pow_two_sub_one_eq_mod v 8
  norm_num at h
  exact h

set_option maxHeartbeats 2000000 in
theorem chachaSerialize_lit64 (x0 x1 x2 x3 x4 x5 x6 x7 x8 x9 x10 x11 x12 x13 x14 x15 s0 s1 s2 s3 s4 s5 s6 s7 s8 s9 s10 s11 s12 s13 s14 s15 : Nat) :
    chachaSerialize [x0, x1, x2, x3, x4, x5, x6, x7, x8, x9, x10, x11, x12, x13, x14, x15] [s0, s1, s2, s3, s4, s5, s6, s7, s8, s9, s10, s11, s12, s13, s14, s15] =
    [((x0 + s0) % 2 ^ 32) &&& 255,
     (((x0 + s0) % 2 ^ 32) >>> 8) &&& 255,
     (((x0 + s0) % 2 ^ 32) >>> 16) &&& 255,
     (((x0 + s0) % 2 ^ 32) >>> 24) &&& 255,
     ((x1 + s1) % 2 ^ 32) &&& 255,
     (((x1 + s1) % 2 ^ 32) >>> 8) &&& 255,
     (((x1 + s1) % 2 ^ 32) >>> 16) &&& 255,
     (((x1 + s1) % 2 ^ 32) >>> 24) &&& 255,
     ((x2 + s2) % 2 ^ 32) &&& 255,
     (((x2 + s2) % 2 ^ 32) >>> 8) &&& 255,
     (((x2 + s2) % 2 ^ 32) >>> 16) &&& 255,
     (((x2 + s2) % 2 ^ 32) >>> 24) &&& 255,
     ((x3 + s3) % 2 ^ 32) &&& 255,
     (((x3 + s3) % 2 ^ 32) >>> 8) &&& 255,
     (((x3 + s3) % 2 ^ 32) >>> 16) &&& 255,
     (((x3 + s3) % 2 ^ 32) >>> 24) &&& 255,
     ((x4 + s4) % 2 ^ 32) &&& 255,
     (((x4 + s4) % 2 ^ 32) >>> 8) &&& 255,
     (((x4 + s4) % 2 ^ 32) >>> 16) &&& 255,
     (((x4 + s4) % 2 ^ 32) >>> 24) &&& 255,
     ((x5 + s5) % 2 ^ 32) &&& 255,
     (((x5 + s5) % 2 ^ 32) >>> 8) &&& 255,
     (((x5 + s5) % 2 ^ 32) >>> 16) &&& 255,
     (((x5 + s5) % 2 ^ 32) >>> 24) &&& 255,
     ((x6 + s6) % 2 ^ 32) &&& 255,
     (((x6 + s6) % 2 ^ 32) >>> 8) &&& 255,
     (((x6 + s6) % 2 ^ 32) >>> 16) &&& 255,
     (((x6 + s6) % 2 ^ 32) >>> 24) &&& 255,
     ((x7 + s7) % 2 ^ 32) &&& 255,
     (((x7 + s7) % 2 ^ 32) >>> 8) &&& 255,
     (((x7 + s7) % 2 ^ 32) >>> 16) &&& 255,
     (((x7 + s7) % 2 ^ 32) >>> 24) &&& 255,
     ((x8 + s8) % 2 ^ 32) &&& 255,
     (((x8 + s8) % 2 ^ 32) >>> 8) &&& 255,
     (((x8 + s8) % 2 ^ 32) >>> 16) &&& 255,
     (((x8 + s8) % 2 ^ 32) >>> 24) &&& 255,
     ((x9 + s9) % 2 ^ 32) &&& 255,
     (((x9 + s9) % 2 ^ 32) >>> 8) &&& 255,
     (((x9 + s9) % 2 ^ 32) >>> 16) &&& 255,
     (((x9 + s9) % 2 ^ 32) >>> 24) &&& 255,
     ((x10 + s10) % 2 ^ 32) &&& 255,
     (((x10 + s10) % 2 ^ 32) >>> 8) &&& 255,
     (((x10 + s10) % 2 ^ 32) >>> 16) &&& 255,
     (((x10 + s10) % 2 ^ 32) >>> 24) &&& 255,
     ((x11 + s11) % 2 ^ 32) &&& 255,
     (((x11 + s11) % 2 ^ 32) >>> 8) &&& 255,
     (((x11 + s11) % 2 ^ 32) >>> 16) &&& 255,
     (((x11 + s11) % 2 ^ 32) >>> 24) &&& 255,
     ((x12 + s12) % 2 ^ 32) &&& 255,
     (((x12 + s12) % 2 ^ 32) >>> 8) &&& 255,
     (((x12 + s12) % 2 ^ 32) >>> 16) &&& 255,
     (((x12 + s12) % 2 ^ 32) >>> 24) &&& 255,
     ((x13 + s13) % 2 ^ 32) &&& 255,
     (((x13 + s13) % 2 ^ 32) >>> 8) &&& 255,
     (((x13 + s13) % 2 ^ 32) >>> 16) &&& 255,
     (((x13 + s13) % 2 ^ 32) >>> 24) &&& 255,
     ((x14 + s14) % 2 ^ 32) &&& 255,
     (((x14 + s14) % 2 ^ 32) >>> 8) &&& 255,
     (((x14 + s14) % 2 ^ 32) >>> 16) &&& 255,
     (((x14 + s14) % 2 ^ 32) >>> 24) &&& 255,
     ((x15 + s15) % 2 ^ 32) &&& 255,
     (((x15 + s15) % 2 ^ 32) >>> 8) &&& 255,
     (((x15 + s15) % 2 ^ 32) >>> 16) &&& 255,
     (((x15 + s15) % 2 ^ 32) >>> 24) &&& 255] := by
  simp [chachaSerialize, List.range_succ, List.replicate]

set_option maxHeartbeats 2000000 in
theorem specSerialize_lit64 (x0 x1 x2 x3 x4 x5 x6 x7 x8 x9 x10 x11 x12 x13 x14 x15 s0 s1 s2 s3 s4 s5 s6 s7 s8 s9 s10 s11 s12 s13 s14 s15 : Nat) :
    specSerialize [x0, x1, x2, x3, x4, x5, x6, x7, x8, x9, x10, x11, x12, x13, x14, x15] [s0, s1, s2, s3, s4, s5, s6, s7, s8, s9, s10, s11, s12, s13, s14, s15] =
    [((x0 + s0) % 2 ^ 32) % 256,
     ((x0 + s0) % 2 ^ 32) / 2 ^ 8 % 256,
     ((x0 + s0) % 2 ^ 32) / 2 ^ 16 % 256,
     ((x0 + s0) % 2 ^ 32) / 2 ^ 24 % 256,
     ((x1 + s1) % 2 ^ 32) % 256,
     ((x1 + s1) % 2 ^ 32) / 2 ^ 8 % 256,
     ((x1 + s1) % 2 ^ 32) / 2 ^ 16 % 256,
     ((x1 + s1) % 2 ^ 32) / 2 ^ 24 % 256,
     ((x2 + s2) % 2 ^ 32) % 256,
     ((x2 + s2) % 2 ^ 32) / 2 ^ 8 % 256,
     ((x2 + s2) % 2 ^ 32) / 2 ^ 16 % 256,
     ((x2 + s2) % 2 ^ 32) / 2 ^ 24 % 256,
     ((x3 + s3) % 2 ^ 32) % 256,
     ((x3 + s3) % 2 ^ 32) / 2 ^ 8 % 256,
     ((x3 + s3) % 2 ^ 32) / 2 ^ 16 % 256,
     ((x3 + s3) % 2 ^ 32) / 2 ^ 24 % 256,
     ((x4 + s4) % 2 ^ 32) % 256,
     ((x4 + s4) % 2 ^ 32) / 2 ^ 8 % 256,
     ((x4 + s4) % 2 ^ 32) / 2 ^ 16 % 256,
     ((x4 + s4) % 2 ^ 32) / 2 ^ 24 % 256,
     ((x5 + s5) % 2 ^ 32) % 256,
     ((x5 + s5) % 2 ^ 32) / 2 ^ 8 % 256,
     ((x5 + s5) % 2 ^ 32) / 2 ^ 16 % 256,
     ((x5 + s5) % 2 ^ 32) / 2 ^ 24 % 256,
     ((x6 + s6) % 2 ^ 32) % 256,
     ((x6 + s6) % 2 ^ 32) / 2 ^ 8 % 256,
     ((x6 + s6) % 2 ^ 32) / 2 ^ 16 % 256,
     ((x6 + s6) % 2 ^ 32) / 2 ^ 24 % 256,
     ((x7 + s7) % 2 ^ 32) % 256,
     ((x7 + s7) % 2 ^ 32) / 2 ^ 8 % 256,
     ((x7 + s7) % 2 ^ 32) / 2 ^ 16 % 256,
     ((x7 + s7) % 2 ^ 32) / 2 ^ 24 % 256,
     ((x8 + s8) % 2 ^ 32) % 256,
     ((x8 + s8) % 2 ^ 32) / 2 ^ 8 % 256,
     ((x8 + s8) % 2 ^ 32) / 2 ^ 16 % 256,
     ((x8 + s8) % 2 ^ 32) / 2 ^ 24 % 256,
     ((x9 + s9) % 2 ^ 32) % 256,
     ((x9 + s9) % 2 ^ 32) / 2 ^ 8 % 256,
     ((x9 + s9) % 2 ^ 32) / 2 ^ 16 % 256,
     ((x9 + s9) % 2 ^ 32) / 2 ^ 24 % 256,
     ((x10 + s10) % 2 ^ 32) % 256,
     ((x10 + s10) % 2 ^ 32) / 2 ^ 8 % 256,
     ((x10 + s10) % 2 ^ 32) / 2 ^ 16 % 256,
     ((x10 + s10) % 2 ^ 32) / 2 ^ 24 % 256,
     ((x11 + s11) % 2 ^ 32) % 256,
     ((x11 + s11) % 2 ^ 32) / 2 ^ 8 % 256,
     ((x11 + s11) % 2 ^ 32) / 2 ^ 16 % 256,
     ((x11 + s11) % 2 ^ 32) / 2 ^ 24 % 256,
     ((x12 + s12) % 2 ^ 32) % 256,
     ((x12 + s12) % 2 ^ 32) / 2 ^ 8 % 256,
     ((x12 + s12) % 2 ^ 32) / 2 ^ 16 % 256,
     ((x12 + s12) % 2 ^ 32) / 2 ^ 24 % 256,
     ((x13 + s13) % 2 ^ 32) % 256,
     ((x13 + s13) % 2 ^ 32) / 2 ^ 8 % 256,
     ((x13 + s13) % 2 ^ 32) / 2 ^ 16 % 256,
     ((x13 + s13) % 2 ^ 32) / 2 ^ 24 % 256,
     ((x14 + s14) % 2 ^ 32) % 256,
     ((x14 + s14) % 2 ^ 32) / 2 ^ 8 % 256,
     ((x14 + s14) % 2 ^ 32) / 2 ^ 16 % 256,
     ((x14 + s14) % 2 ^ 32) / 2 ^ 24 % 256,
     ((x15 + s15) % 2 ^ 32) % 256,
     ((x15 + s15) % 2 ^ 32) / 2 ^ 8 % 256,
     ((x15 + s15) % 2 ^ 32) / 2 ^ 16 % 256,
     ((x15 + s15) % 2 ^ 32) / 2 ^ 24 % 256] := by
  simp [specSerialize, leBytes, List.range_succ]

set_option maxHeartbeats 2000000 in
theorem chachaSerialize_lit (x0 x1 x2 x3 x4 x5 x6 x7 x8 x9 x10 x11 x12 x13 x14 x15 s0 s1 s2 s3 s4 s5 s6 s7 s8 s9 s10 s11 s12 s13 s14 s15 : Nat) :
    chachaSerialize [x0, x1, x2, x3, x4, x5, x6, x7, x8, x9, x10, x11, x12, x13, x14, x15] [s0, s1, s2, s3, s4, s5, s6, s7, s8, s9, s10, s11, s12, s13, s14, s15] = specSerialize [x0, x1, x2, x3, x4, x5, x6, x7, x8, x9, x10, x11, x12, x13, x14, x15] [s0, s1, s2, s3, s4, s5, s6, s7, s8, s9, s10, s11, s12, s13, s14, s15] := by
  rw [chachaSerialize_lit64, specSerialize_lit64]
  simp only [and255_eq_mod, Nat.shiftRight_eq_div_pow]

theorem getD_set_self16 (l : List Nat) (i v d : Nat) (h : i < l.length) :
    (l.set i v).getD i d = v := by
  rw [List.getD_eq_getElem?_getD, List.getElem?_set_self (by simpa using h)]
  rfl

theorem getD_set_ne16 (l : List Nat) (i j v d : Nat) (h : i ≠ j) :
    (l.set i v).getD j d = l.getD j d := by
  rw [List.getD_eq_getElem?_getD, List.getElem?_set_ne h, ← List.getD_eq_getElem?_getD]

theorem chachaIncrCounter_eq (st : List Nat) (hlen : st.length = 16)
    (h12 : st.getD 12 0 < 2 ^ 32) : chachaIncrCounter st = specIncrCounter st := by
  simp only [chachaIncrCounter, specIncrCounter]
  rw [getD_set_self16 st 12 _ 0 (by omega)]
  by_cases hov : st.getD 12 0 + 1 = 2 ^ 32
  · rw [if_pos (by rw [hov]; norm_num), if_pos hov,
      getD_set_ne16 st 12 13 _ 0 (by norm_num),
      show (st.getD 12 0 + 1) % 2 ^ 32 = 0 from by rw [hov]; norm_num]
  · rw [if_neg (by omega), if_neg hov]

set_option maxHeartbeats 1000000 in
/-- The `lib/entropy.ts` half of C5: for every 16-word state of 32-bit
words, `block()` produces exactly the buffer and state the specification
describes: copy the state, apply 10 double rounds (column then diagonal
quarter rounds, ARX rotations 16, 12, 8, 7), add the pre-round state
word-by-word mod `2^32`, serialize the 16 words little-endian into the
64-byte buffer, and increment counter word 12 with carry into word 13 on
overflow. -/
theorem chachaBlock_spec (st : List Nat) (hlen : st.length = 16)
    (hw : ∀ w ∈ st, w < 2 ^ 32) :
    chachaBlock st = (specSerialize (specRounds st) st, specIncrCounter st) := by
  have h12l : (12 : Nat) < st.length := by omega
  have h12 : st.getD 12 0 < 2 ^ 32 := by
    rw [List.getD_eq_getElem st 0 h12l]
    exact hw _ (List.getElem_mem h12l)
  rw [chachaBlock, chachaRounds_eq_spec st hlen, chachaIncrCounter_eq st hlen h12]
  have hsl : (specRounds st).length = 16 := by
    rw [specRounds, specDoubleRound_iter_length, hlen]
  obtain ⟨x0, x1, x2, x3, x4, x5, x6, x7, x8, x9, x10, x11, x12, x13, x14, x15, hx⟩ := list16 (specRounds st) hsl
  obtain ⟨s0, s1, s2, s3, s4, s5, s6, s7, s8, s9, s10, s11, s12, s13, s14, s15, hs⟩ := list16 st hlen
  rw [hx, hs, chachaSerialize_lit]

/-- JS `(word >> 8) & 0xFF` equals the unsigned byte `word / 2^8 % 256`
for every 32-bit word: the sign bias `2^32` introduced by `ToInt32` is a
multiple of `2^8 * 256`, so it vanishes in the residue. -/
theorem toInt32_shr8 (a : Nat) :
    (toInt32 (a % 2 ^ 32) / 2 ^ 8 % 256).toNat = a % 2 ^ 32 / 2 ^ 8 % 256 := by
  unfold toInt32
  split <;> omega

theorem toInt32_shr16 (a : Nat) :
    (toInt32 (a % 2 ^ 32) / 2 ^ 16 % 256).toNat = a % 2 ^ 32 / 2 ^ 16 % 256 := by
  unfold toInt32
  split <;> omega

theorem toInt32_shr24 (a : Nat) :
    (toInt32 (a % 2 ^ 32) / 2 ^ 24 % 256).toNat = a % 2 ^ 32 / 2 ^ 24 % 256 := by
  unfold toInt32
  split <;> omega

/-- The `complexity.ts` serialization agrees with the `lib/entropy.ts` one
on every pair of word lists: each stored byte is the same, by the three
shift lemmas above. -/
theorem cplxSerialize_eq_chacha (x st : List Nat) :
    cplxSerialize x st = chachaSerialize x st := by
  unfold cplxSerialize chachaSerialize
  congr 1
  funext buf i
  simp only [toInt32_shr8, toInt32_shr16, toInt32_shr24, and255_eq_mod,
    Nat.shiftRight_eq_div_pow]

/-- The `complexity.ts` half of C5: `generateBlock` first overwrites word
12 with the low 32 bits of the unbounded counter, then produces the
spec's rounds-add-serialize buffer from that state; the state update is
only that word-12 store and the counter increment — word 13 is untouched,
so there is no carry. -/
theorem cplxGenerateBlock_eq (st : List Nat) (ctr : Nat) (hlen : st.length = 16) :
    cplxGenerateBlock st ctr =
      (specSerialize (specRounds (st.set 12 (ctr % 2 ^ 32))) (st.set 12 (ctr % 2 ^ 32)),
        st.set 12 (ctr % 2 ^ 32), ctr + 1) := by
  have hlen2 : (st.set 12 (ctr % 2 ^ 32)).length = 16 := by
    rw [List.length_set, hlen]
  simp only [cplxGenerateBlock]
  rw [cplxSerialize_eq_chacha, chachaRounds_eq_spec _ hlen2]
  have hsl : (specRounds (st.set 12 (ctr % 2 ^ 32))).length = 16 := by
    rw [specRounds, specDoubleRound_iter_length, hlen2]
  obtain ⟨x0, x1, x2, x3, x4, x5, x6, x7, x8, x9, x10, x11, x12, x13, x14, x15, hx⟩ := list16 _ hsl
  obtain ⟨s0, s1, s2, s3, s4, s5, s6, s7, s8, s9, s10, s11, s12, s13, s14, s15, hs⟩ := list16 _ hlen2
  rw [hx, hs, chachaSerialize_lit]

/-- C5 (amended): the `lib/entropy.ts` block function implements the
spec's pipeline in full — 10 double rounds of column then diagonal ARX
quarter rounds with rotations 16, 12, 8, 7, word-wise addition of the
pre-round state mod `2^32`, little-endian serialization into the 64-byte
buffer, and a counter increment in word 12 that carries into word 13 on
overflow.  The `complexity.ts` `ChaCha20CSPRNG.generateBlock` applies the
same rounds, addition and serialization to the state with word 12 set to
the low 32 bits of its unbounded `bigint` counter, and its only state
change is that word-12 store plus the `bigint` increment: no carry is
ever propagated into word 13 (see `C5_counterexample`). -/
theorem C5_amended_block_functions :
    (∀ st : List Nat, st.length = 16 → (∀ w ∈ st, w < 2 ^ 32) →
      chachaBlock st = (specSerialize (specRounds st) st, specIncrCounter st)) ∧
    (∀ st : List Nat, ∀ ctr : Nat, st.length = 16 →
      cplxGenerateBlock st ctr =
        (specSerialize (specRounds (st.set 12 (ctr % 2 ^ 32))) (st.set 12 (ctr % 2 ^ 32)),
          st.set 12 (ctr % 2 ^ 32), ctr + 1)) :=
  ⟨chachaBlock_spec, cplxGenerateBlock_eq⟩

/-- Witness for C5 at the all-zero 16-word state (counter 5 for the
`complexity.ts` variant). -/
theorem C5_witness :
    chachaBlock (List.replicate 16 0) =
      (specSerialize (specRounds (List.replicate 16 0)) (List.replicate 16 0),
        specIncrCounter (List.replicate 16 0)) ∧
    cplxGenerateBlock (List.replicate 16 0) 5 =
      (specSerialize (specRounds ((List.replicate 16 0).set 12 (5 % 2 ^ 32)))
        ((List.replicate 16 0).set 12 (5 % 2 ^ 32)),
        (List.replicate 16 0).set 12 (5 % 2 ^ 32), 6) :=
  ⟨C5_amended_block_functions.1 (List.replicate 16 0) (List.length_replicate 16 0)
    (fun w hw => by rw [List.eq_of_mem_replicate hw]; norm_num),
   C5_amended_block_functions.2 (List.replicate 16 0) 5 (List.length_replicate 16 0)⟩

/-- C5 counterexample: the original claim's carry clause is false for the
cited `complexity.ts` implementation.  Take the all-zero state whose word
12 holds `2^32 - 1` (the state left by the block that exhausted the
32-bit counter range) and let the `bigint` counter stand at `2^32`: the
next `generateBlock` wraps word 12 to 0 but leaves word 13 at 0, whereas
the claimed increment-with-carry semantics (`specIncrCounter`) sets word
12 to 0 *and* word 13 to 1. -/
theorem C5_counterexample :
    ((cplxGenerateBlock ((List.replicate 16 0).set 12 (2 ^ 32 - 1)) (2 ^ 32)).2.1).getD 12 0 = 0 ∧
    ((cplxGenerateBlock ((List.replicate 16 0).set 12 (2 ^ 32 - 1)) (2 ^ 32)).2.1).getD 13 0 = 0 ∧
    (specIncrCounter ((List.replicate 16 0).set 12 (2 ^ 32 - 1))).getD 12 0 = 0 ∧
    (specIncrCounter ((List.replicate 16 0).set 12 (2 ^ 32 - 1))).getD 13 0 = 1 := by
  decide

/-! ## Claim C7: permutation invariance of `Stats.assess`

The chi-square test and the entropy test depend only on the multiset of
samples, but the runs test counts adjacent sign changes and is
order-sensitive, and `assess` adds its verdict into the score.  The claim
therefore fails; the amended statement conditions on the runs verdict. -/

theorem statChiStep_comm (buckets : Nat) (cs : List Nat) (v w : ℚ) :
    statChiStep buckets (statChiStep buckets cs v) w =
    statChiStep buckets (statChiStep buckets cs w) v := by
  simp only [statChiStep]
  by_cases h1 : statBucket buckets v < 0
  · by_cases h2 : statBucket buckets w < 0
    · simp [h1, h2]
    · simp [h1, h2]
  · by_cases h2 : statBucket buckets w < 0
    · simp [h1, h2]
    · simp only [if_neg h1, if_neg h2]
      by_cases hn : (statBucket buckets v).toNat = (statBucket buckets w).toNat
      · rw [hn]
      · rw [getD_set_ne16 cs _ _ _ 0 hn, getD_set_ne16 cs _ _ _ 0 (Ne.symm hn),
          List.set_comm _ _ _ hn]

theorem statChiCounts_perm (d1 d2 : List ℚ) (b : Nat) (hp : d1.Perm d2) :
    statChiCounts d1 b = statChiCounts d2 b := by
  unfold statChiCounts
  exact hp.foldl_eq' (fun x _ y _ z => statChiStep_comm b z x y) _

theorem statChiStatistic_perm (d1 d2 : List ℚ) (b : Nat) (hp : d1.Perm d2) :
    statChiStatistic d1 b = statChiStatistic d2 b := by
  unfold statChiStatistic
  rw [statChiCounts_perm d1 d2 b hp, hp.length_eq]

theorem statChiPass_perm (d1 d2 : List ℚ) (b : Nat) (hp : d1.Perm d2) :
    statChiPass d1 b = statChiPass d2 b := by
  unfold statChiPass
  rw [statChiStatistic_perm d1 d2 b hp]

theorem shannonEntropy_perm (b1 b2 : List Nat) (p : b1.Perm b2) :
    shannonEntropy b1 = shannonEntropy b2 := by
  unfold shannonEntropy
  congr 1
  funext h b
  rw [p.count_eq, p.length_eq]

theorem foldl_congr_fixed {α β : Type} (f : β → α → β) (l : List α) (init : β)
    (hf : ∀ b a, f b a = b) : l.foldl f init = init := by
  induction l generalizing init with
  | nil => rfl
  | cons a l ih => rw [List.foldl_cons, hf, ih]

theorem shannon_zero (n : Nat) : shannonEntropy (List.replicate n 0) = 0 := by
  unfold shannonEntropy
  apply foldl_congr_fixed
  intro h b
  rcases Nat.eq_zero_or_pos n with h0 | hn
  · subst h0
    simp
  · by_cases hb : b = 0
    · subst hb
      rw [List.count_replicate_self, List.length_replicate, if_pos hn,
        div_self (by exact_mod_cast hn.ne' : (n : ℝ) ≠ 0), Real.logb_one]
      ring
    · simp [List.count_replicate, hb, Ne.symm hb]

/-- C7 (amended): `assess` is invariant under any permutation of its input
that preserves the runs-test verdict: the chi-square statistic and the
byte-entropy depend only on the multiset of samples, so for `d1 ~ d2` with
`statRunsPass d1 = statRunsPass d2` the score and the quality label agree.
(The unconditional claim is refuted by `C7_counterexample`: the runs test
counts adjacent sign changes and is order-sensitive.) -/
theorem C7_assess_perm_invariant_given_runs (d1 d2 : List ℚ) (hp : d1.Perm d2)
    (hr : statRunsPass d1 = statRunsPass d2) : assess d1 = assess d2 := by
  have hc := statChiPass_perm d1 d2 10 hp
  have he : shannonEntropy (bytesOfSamples d1) = shannonEntropy (bytesOfSamples d2) :=
    shannonEntropy_perm _ _ (hp.map _)
  simp only [assess, hc, hr, he]

attribute [local semireducible] Rat.add Rat.mul Rat.sub Rat.inv Rat.ofScientific in
/-- Witness for C7 at `[0, 1]` and its reversal (both fail the runs test). -/
theorem C7_witness : ([(0 : ℚ), 1]).Perm [1, 0] ∧ assess [(0 : ℚ), 1] = assess [1, 0] :=
  ⟨by decide, C7_assess_perm_invariant_given_runs [0, 1] [1, 0] (by decide) (by decide)⟩

/-- 10 zeros and 10 copies of 1/1000, interleaved so that the runs count
(11) matches its expectation (11) exactly and the runs test passes. -/
def permData1 : List ℚ :=
  [0, 0, 0, 0, 0, 1/1000, 1/1000, 0, 1/1000, 1/1000, 0, 1/1000, 1/1000, 0,
   1/1000, 1/1000, 0, 1/1000, 1/1000, 0]

/-- The same multiset sorted: 2 runs, and the runs test fails. -/
def permData2 : List ℚ :=
  [0, 0, 0, 0, 0, 0, 0, 0, 0, 0, 1/1000, 1/1000, 1/1000, 1/1000, 1/1000,
   1/1000, 1/1000, 1/1000, 1/1000, 1/1000]

attribute [local semireducible] Rat.add Rat.mul Rat.sub Rat.inv Rat.ofScientific in
/-- The original C7 is false: `permData2` is a permutation of `permData1`
(same 20 samples, reordered), yet `assess` scores them 33 and 0: the
interleaved order passes the runs test (runs = expected = 11) while the
sorted order fails it (2 runs). -/
theorem C7_counterexample :
    permData1.Perm permData2 ∧ assess permData1 ≠ assess permData2 := by
  have hb1 : bytesOfSamples permData1 = List.replicate 20 0 := by decide
  have hb2 : bytesOfSamples permData2 = List.replicate 20 0 := by decide
  have hc1 : statChiPass permData1 10 = false := by decide
  have hc2 : statChiPass permData2 10 = false := by decide
  have hr1 : statRunsPass permData1 = true := by decide
  have hr2 : statRunsPass permData2 = false := by decide
  have h1 : assess permData1 = (33, "poor") := by
    simp only [assess, hb1, hc1, hr1, shannon_zero]
    norm_num
  have h2 : assess permData2 = (0, "poor") := by
    simp only [assess, hb2, hc2, hr2, shannon_zero]
    norm_num
  exact ⟨by decide, by rw [h1, h2]; decide⟩

end CryptoLab
